import Mathlib

/-!
Verification of the CyclingCalculator power/velocity model.

The definitions below are a shallow embedding, over the real numbers, of
`src/calculator.py`: the force model (`calculate_forces`), the power model
(`calculate_power` together with its intermediate quantities
`total_force`, `raw_wheel_power`, `drive_train_frac`, `raw_leg_power`),
the effective-power scalar (`pow_dict_to_leg_power`), the bisection solver
(`calculate_velocity`, expressed through `bisectLoop` with the iteration
budget of the source's `it_count` counter), and the sweep performed by
`update_graph` (power range, per-power velocity, duration and TSS).
Python's division, which raises `ZeroDivisionError` on a zero denominator,
is modelled by `pydiv` returning an `Option`; the sweep therefore returns
`none` exactly when a division in it would raise.  The leg-power division
`wheel_power / drive_train_frac` of `calculate_power` is likewise fallible
(`drivetrainLossPct = 100` with positive wheel power divides by zero):
`calculate_powerE`, `bisectLoopE` and `calculate_velocityE` are the
faithful fallible power model and solver, while `calculate_power` and
`calculate_velocity` are their total-division projections, proved to
agree with them whenever `drivetrainLossPct ≠ 100`
(`calculate_powerE_eq_some`, `calculate_velocityE_eq_some`).
-/

namespace CyclingCalc

noncomputable section

/-- Embedding of the `ScrapeParameters` value object: the rider/bike
parameters (`rp_*`) and environment parameters (`ep_*`) of one session. -/
structure ScrapeParameters where
  rp_wr : ℝ
  rp_wb : ℝ
  rp_a : ℝ
  rp_cd : ℝ
  rp_dtl : ℝ
  ep_crr : ℝ
  ep_rho : ℝ
  ep_headwind : ℝ
  ep_g : ℝ

/-- Result dictionary of `calculate_forces`. -/
structure ForceDict where
  f_gravity : ℝ
  f_rolling : ℝ
  f_drag : ℝ

/-- Embedding of `calculate_forces`: gravity, rolling resistance (negated
for negative velocity) and aerodynamic drag (negated when the effective
airspeed `velocity + headwind` is negative). -/
def calculate_forces (velocity : ℝ) (params : ScrapeParameters) : ForceDict :=
  { f_gravity := 9.8067 * (params.rp_wr + params.rp_wb) *
      Real.sin (Real.arctan (params.ep_g / 100)),
    f_rolling :=
      if velocity < 0 then
        9.8067 * (params.rp_wr + params.rp_wb) *
          Real.cos (Real.arctan (params.ep_g / 100)) * params.ep_crr * (-1)
      else
        9.8067 * (params.rp_wr + params.rp_wb) *
          Real.cos (Real.arctan (params.ep_g / 100)) * params.ep_crr,
    f_drag :=
      if velocity + params.ep_headwind < 0 then
        0.5 * params.rp_a * params.rp_cd * params.ep_rho *
          ((velocity + params.ep_headwind) * 1000 / 3600) *
          ((velocity + params.ep_headwind) * 1000 / 3600) * (-1)
      else
        0.5 * params.rp_a * params.rp_cd * params.ep_rho *
          ((velocity + params.ep_headwind) * 1000 / 3600) *
          ((velocity + params.ep_headwind) * 1000 / 3600) }

/-- Result dictionary of `calculate_power`. -/
structure PowerDict where
  leg_power : ℝ
  wheel_power : ℝ
  drive_train_loss : ℝ
  braking_power : ℝ

/-- The local `total_force` of `calculate_power`. -/
def total_force (velocity : ℝ) (params : ScrapeParameters) : ℝ :=
  (calculate_forces velocity params).f_gravity +
    (calculate_forces velocity params).f_rolling +
    (calculate_forces velocity params).f_drag

/-- The local `wheel_power` of `calculate_power` before the branch
overwrites it. -/
def raw_wheel_power (velocity : ℝ) (params : ScrapeParameters) : ℝ :=
  total_force velocity params * (velocity * 1000 / 3600)

/-- The local `drive_train_frac` of `calculate_power`: the drivetrain loss
applies only when `wheel_power > 0`. -/
def drive_train_frac (velocity : ℝ) (params : ScrapeParameters) : ℝ :=
  if raw_wheel_power velocity params > 0 then 1 - params.rp_dtl / 100 else 1

/-- The local `leg_power` of `calculate_power` before the branch
overwrites it, with the division `wheel_power / drive_train_frac` taken
total (`x / 0 = 0`).  In Python that division raises `ZeroDivisionError`
when `drive_train_frac = 0`, i.e. `drivetrainLossPct = 100` with positive
wheel power; `calculate_powerE` below is the faithful fallible embedding,
and `calculate_powerE_eq_some` shows this total projection agrees with it
whenever `drivetrainLossPct ≠ 100`. -/
def raw_leg_power (velocity : ℝ) (params : ScrapeParameters) : ℝ :=
  raw_wheel_power velocity params / drive_train_frac velocity params

/-- Embedding of `calculate_power`.  In the source's else-branch the
assignment `leg_power = 0.0` happens before
`braking_power = leg_power * -1.0`, so `braking_power` there is
`0 * (-1)`; the embedding reproduces that ordering. -/
def calculate_power (velocity : ℝ) (params : ScrapeParameters) : PowerDict :=
  if raw_leg_power velocity params > 0 then
    { leg_power := raw_leg_power velocity params,
      wheel_power := raw_wheel_power velocity params,
      drive_train_loss := raw_leg_power velocity params - raw_wheel_power velocity params,
      braking_power := 0 }
  else
    { leg_power := 0,
      wheel_power := 0,
      drive_train_loss := 0,
      braking_power := (0 : ℝ) * (-1) }

/-- Embedding of `pow_dict_to_leg_power`: the scalar used by the solver,
negative braking power when braking, leg power otherwise. -/
def pow_dict_to_leg_power (pow_dict : PowerDict) : ℝ :=
  if pow_dict.braking_power > 0 then pow_dict.braking_power * (-1)
  else pow_dict.leg_power

/-- The solver tolerance `epsilon = 0.000001` of `calculate_velocity`. -/
def epsilon : ℝ := 0.000001

/-- The effective-power scalar at a velocity: `pow_dict_to_leg_power`
composed with `calculate_power`, as evaluated in the solver loop. -/
def effPow (velocity : ℝ) (params : ScrapeParameters) : ℝ :=
  pow_dict_to_leg_power (calculate_power velocity params)

/-- One refinement of the bisection state `(lower_vel, upper_vel, mid_vel)`:
narrow a bound to the midpoint and recompute the midpoint, exactly as one
pass of the `while` loop of `calculate_velocity` does. -/
def bisectStep (power : ℝ) (params : ScrapeParameters) (s : ℝ × ℝ × ℝ) : ℝ × ℝ × ℝ :=
  let mid_pow := effPow s.2.2 params
  let upper_vel := if mid_pow > power then s.2.2 else s.2.1
  let lower_vel := if mid_pow > power then s.1 else s.2.2
  (lower_vel, upper_vel, (upper_vel + lower_vel) / 2)

/-- The `while` loop of `calculate_velocity`.  `fuel` counts how many more
times `it_count` may be incremented without tripping the `it_count > 100`
abort: the loop returns the midpoint on convergence, and after the final
permitted refinement it returns the freshly computed midpoint. -/
def bisectLoop (power : ℝ) (params : ScrapeParameters) (fuel : ℕ) (s : ℝ × ℝ × ℝ) : ℝ :=
  if |effPow s.2.2 params - power| < epsilon then s.2.2
  else if h : fuel = 0 then (bisectStep power params s).2.2
  else bisectLoop power params (fuel - 1) (bisectStep power params s)
termination_by fuel
decreasing_by omega

/-- Embedding of `calculate_velocity`: bisection from bounds
`[-1000, 1000]` with initial midpoint `0`; `it_count` starts at `0` and
the loop aborts once it exceeds `100`, which leaves `100` values of
`fuel` before the final forced refinement. -/
def calculate_velocity (power : ℝ) (params : ScrapeParameters) : ℝ :=
  bisectLoop power params 100 (-1000, 1000, 0)

/-- Python float division: raises `ZeroDivisionError` on a zero
denominator, modelled as `none`. -/
def pydiv (a b : ℝ) : Option ℝ :=
  if b = 0 then none else some (a / b)

/-- Faithful fallible embedding of `calculate_power`: the source's
`leg_power = wheel_power / drive_train_frac` is a Python division, which
raises when `drive_train_frac = 0` (`drivetrainLossPct = 100` with
positive wheel power).  The branch on `leg_power` is as in
`calculate_power`, else-branch ordering slip included. -/
def calculate_powerE (velocity : ℝ) (params : ScrapeParameters) : Option PowerDict :=
  (pydiv (raw_wheel_power velocity params) (drive_train_frac velocity params)).map
    fun leg_power =>
      if leg_power > 0 then
        { leg_power := leg_power,
          wheel_power := raw_wheel_power velocity params,
          drive_train_loss := leg_power - raw_wheel_power velocity params,
          braking_power := 0 }
      else
        { leg_power := 0,
          wheel_power := 0,
          drive_train_loss := 0,
          braking_power := (0 : ℝ) * (-1) }

/-- The `while` loop of `calculate_velocity` over the fallible power
model.  `mid_pow_dict` is the dictionary computed for the current
midpoint before the loop entry, exactly as in the source; after each
refinement the dictionary of the new midpoint is computed (where a
division error escapes) before the `it_count > 100` abort check. -/
def bisectLoopE (power : ℝ) (params : ScrapeParameters) (fuel : ℕ)
    (s : ℝ × ℝ × ℝ) (mid_pow_dict : PowerDict) : Option ℝ :=
  let mid_pow := pow_dict_to_leg_power mid_pow_dict
  if |mid_pow - power| < epsilon then some s.2.2
  else
    let upper_vel := if mid_pow > power then s.2.2 else s.2.1
    let lower_vel := if mid_pow > power then s.1 else s.2.2
    let mid_vel := (upper_vel + lower_vel) / 2
    (calculate_powerE mid_vel params).bind fun d =>
      if h : fuel = 0 then some mid_vel
      else bisectLoopE power params (fuel - 1) (lower_vel, upper_vel, mid_vel) d
termination_by fuel
decreasing_by omega

/-- Faithful fallible embedding of `calculate_velocity`: `none` when a
`ZeroDivisionError` inside `calculate_power` escapes the solver,
`some mid_vel` otherwise. -/
def calculate_velocityE (power : ℝ) (params : ScrapeParameters) : Option ℝ :=
  (calculate_powerE 0 params).bind fun mid_pow_dict =>
    bisectLoopE power params 100 (-1000, 1000, 0) mid_pow_dict

/-- One row of the sweep's parallel output lists. -/
structure SweepEntry where
  power : ℤ
  speed : ℝ
  duration : ℝ
  tss : ℝ

/-- The body of the sweep loop of `update_graph` for one power value:
`speed = calculate_velocity(power, params)`, `if_value = power / ftp * 1.0`,
`duration = race_distance / speed`, `tss = if_value ** 2 * duration * 100`.
Both divisions are Python divisions. -/
def sweepPoint (ftp race_distance : ℝ) (params : ScrapeParameters) (power : ℤ) :
    Option SweepEntry :=
  let speed := calculate_velocity (power : ℝ) params
  (pydiv (power : ℝ) ftp).bind fun q =>
    let if_value := q * 1
    (pydiv race_distance speed).map fun duration =>
      { power := power, speed := speed, duration := duration,
        tss := if_value ^ 2 * duration * 100 }

/-- Embedding of Python's `range(a, b)` over the integers. -/
def pythonRange (a b : ℤ) : List ℤ :=
  (List.range (b - a).toNat).map (fun i : ℕ => a + (i : ℤ))

/-- The power values swept by `update_graph`:
`range(math.ceil(0.4 * ftp), math.ceil(1.3 * ftp))`. -/
def sweepPowers (ftp : ℝ) : List ℤ :=
  pythonRange ⌈0.4 * ftp⌉ ⌈1.3 * ftp⌉

/-- The sweep loop of `update_graph` over a list of power values; a
division error in any iteration aborts the whole loop. -/
def runSweep (ftp race_distance : ℝ) (params : ScrapeParameters) :
    List ℤ → Option (List SweepEntry)
  | [] => some []
  | p :: ps =>
    (sweepPoint ftp race_distance params p).bind fun e =>
      (runSweep ftp race_distance params ps).map fun rest => e :: rest

/-- The computational content of `update_graph`: run the sweep over the
power range (the figure construction that consumes the series is
rendering only). -/
def update_graph (ftp race_distance : ℝ) (params : ScrapeParameters) :
    Option (List SweepEntry) :=
  runSweep ftp race_distance params (sweepPowers ftp)

/-- The documented default parameter set of the input form: rider 75 kg,
bike 10 kg, frontal area 0.5, drag coefficient 0.51, drivetrain loss 2,
rolling resistance 0.005, air density 1.22, no headwind, flat grade. -/
def defaultParams : ScrapeParameters :=
  { rp_wr := 75, rp_wb := 10, rp_a := 0.5, rp_cd := 0.51, rp_dtl := 2,
    ep_crr := 0.005, ep_rho := 1.22, ep_headwind := 0, ep_g := 0 }

/-- The default profile on a steep descent (`hillGradePct = -10`). -/
def descentParams : ScrapeParameters :=
  { defaultParams with ep_g := -10 }

/-- The default profile with a strong tailwind, used to drive the wheel
power negative on flat ground. -/
def tailwindParams : ScrapeParameters :=
  { defaultParams with ep_headwind := -100 }

/-- The default profile with zero drag coefficient and zero rolling
resistance: a degenerate but admissible profile on which every velocity
needs zero power. -/
def zeroDragParams : ScrapeParameters :=
  { defaultParams with rp_cd := 0, ep_crr := 0 }

/-- The default profile with `drivetrainLossPct = 100`, the top of the
documented 0-100 range: the drivetrain fraction becomes `0` whenever the
wheel power is positive. -/
def lossyParams : ScrapeParameters :=
  { defaultParams with rp_dtl := 100 }

end

/-! ## General structural lemmas -/

/-- The effective-power scalar is the raw leg power clipped at zero:
the returned `braking_power` of `calculate_power` is `0` in both
branches, so `pow_dict_to_leg_power` always takes its else-branch. -/
theorem effPow_eq_clip (velocity : ℝ) (params : ScrapeParameters) :
    effPow velocity params =
      if raw_leg_power velocity params > 0 then raw_leg_power velocity params else 0 := by
  unfold effPow pow_dict_to_leg_power calculate_power
  by_cases h : raw_leg_power velocity params > 0 <;> simp [h]

theorem effPow_nonneg (velocity : ℝ) (params : ScrapeParameters) :
    0 ≤ effPow velocity params := by
  rw [effPow_eq_clip]
  by_cases h : raw_leg_power velocity params > 0 <;> simp [h]
  exact le_of_lt h

theorem raw_wheel_power_at_zero (params : ScrapeParameters) :
    raw_wheel_power 0 params = 0 := by
  unfold raw_wheel_power
  ring

theorem effPow_at_zero (params : ScrapeParameters) : effPow 0 params = 0 := by
  have hleg : raw_leg_power 0 params = 0 := by
    unfold raw_leg_power
    rw [raw_wheel_power_at_zero]
    simp
  rw [effPow_eq_clip, hleg]
  norm_num

/-- If the effective power at the current midpoint is within tolerance of
the target, the loop stops at once and returns that midpoint. -/
theorem bisectLoop_of_conv {power : ℝ} {params : ScrapeParameters} {fuel : ℕ}
    {s : ℝ × ℝ × ℝ} (h : |effPow s.2.2 params - power| < epsilon) :
    bisectLoop power params fuel s = s.2.2 := by
  rw [bisectLoop]
  exact if_pos h

/-- Convergence at an explicit state: the loop returns the midpoint once
the effective power there is within tolerance. -/
theorem bisectLoop_conv_mid {power : ℝ} {params : ScrapeParameters} {fuel : ℕ}
    {l u m e : ℝ} (he : effPow m params = e) (hnear : |e - power| < epsilon) :
    bisectLoop power params fuel (l, u, m) = m := by
  apply bisectLoop_of_conv
  show |effPow m params - power| < epsilon
  rw [he]
  exact hnear

/-- One unfolding of the loop when the midpoint power overshoots the
target: the upper bound narrows to the midpoint. -/
theorem bisectLoop_down {power : ℝ} {params : ScrapeParameters} {fuel : ℕ}
    {l u m e m' : ℝ} {fuel' : ℕ}
    (hfuel : ¬ fuel = 0) (he : effPow m params = e)
    (hfar : ¬ |e - power| < epsilon) (hgt : e > power)
    (hm : (m + l) / 2 = m') (hf : fuel - 1 = fuel') :
    bisectLoop power params fuel (l, u, m) =
      bisectLoop power params fuel' (l, m, m') := by
  rw [bisectLoop]
  simp only [bisectStep]
  rw [he, if_neg hfar, dif_neg hfuel, if_pos hgt, if_pos hgt, hm, hf]

/-- One unfolding of the loop when the midpoint power does not overshoot
the target: the lower bound moves up to the midpoint. -/
theorem bisectLoop_up {power : ℝ} {params : ScrapeParameters} {fuel : ℕ}
    {l u m e m' : ℝ} {fuel' : ℕ}
    (hfuel : ¬ fuel = 0) (he : effPow m params = e)
    (hfar : ¬ |e - power| < epsilon) (hle : ¬ e > power)
    (hm : (u + m) / 2 = m') (hf : fuel - 1 = fuel') :
    bisectLoop power params fuel (l, u, m) =
      bisectLoop power params fuel' (m, u, m') := by
  rw [bisectLoop]
  simp only [bisectStep]
  rw [he, if_neg hfar, dif_neg hfuel, if_neg hle, if_neg hle, hm, hf]

/-- The solver returns its initial midpoint `0` whenever the target power
is `0`: the effective power at velocity `0` is already `0`. -/
theorem calculate_velocity_zero_target (params : ScrapeParameters) :
    calculate_velocity 0 params = 0 := by
  unfold calculate_velocity
  have h : |effPow (((-1000 : ℝ), (1000 : ℝ), (0 : ℝ)) : ℝ × ℝ × ℝ).2.2 params - 0| < epsilon := by
    rw [show (((-1000 : ℝ), (1000 : ℝ), (0 : ℝ)) : ℝ × ℝ × ℝ).2.2 = (0 : ℝ) from rfl,
      effPow_at_zero]
    norm_num [epsilon]
  rw [bisectLoop_of_conv h]

theorem leg_and_braking_at_velocity_zero (params : ScrapeParameters) :
    (calculate_power 0 params).leg_power = 0 ∧
      (calculate_power 0 params).braking_power = 0 := by
  have hleg : raw_leg_power 0 params = 0 := by
    unfold raw_leg_power
    rw [raw_wheel_power_at_zero]
    simp
  unfold calculate_power
  rw [hleg]
  norm_num

theorem sin_arctan_nonneg {x : ℝ} (hx : 0 ≤ x) : 0 ≤ Real.sin (Real.arctan x) := by
  apply Real.sin_nonneg_of_nonneg_of_le_pi
  · rw [← Real.arctan_zero]
    exact Real.arctan_strictMono.monotone hx
  · have h := Real.arctan_lt_pi_div_two x
    have hp := Real.pi_pos
    linarith

/-- The signed drag term of `calculate_forces` is non-decreasing in the
effective airspeed, for a non-negative drag constant. -/
theorem drag_term_mono {K a b : ℝ} (hK : 0 ≤ K) (hab : a ≤ b) :
    (if a < 0 then K * (a * 1000 / 3600) * (a * 1000 / 3600) * (-1)
     else K * (a * 1000 / 3600) * (a * 1000 / 3600)) ≤
    (if b < 0 then K * (b * 1000 / 3600) * (b * 1000 / 3600) * (-1)
     else K * (b * 1000 / 3600) * (b * 1000 / 3600)) := by
  rcases lt_or_le a 0 with ha | ha
  · rcases lt_or_le b 0 with hb | hb
    · rw [if_pos ha, if_pos hb]
      nlinarith [mul_nonneg hK (mul_nonneg (sub_nonneg.2 hab)
        (by linarith : (0 : ℝ) ≤ -(a + b)))]
    · rw [if_pos ha, if_neg (not_lt.2 hb)]
      nlinarith [mul_nonneg hK (mul_self_nonneg (a * 1000 / 3600)),
        mul_nonneg hK (mul_self_nonneg (b * 1000 / 3600))]
  · have hb : 0 ≤ b := ha.trans hab
    rw [if_neg (not_lt.2 ha), if_neg (not_lt.2 hb)]
    nlinarith [mul_nonneg hK (mul_nonneg (sub_nonneg.2 hab)
      (by linarith : (0 : ℝ) ≤ a + b))]

/-- For non-negative velocity, the raw wheel power decomposes into the
grade/rolling/drag force sum times the velocity in m/s. -/
theorem raw_wheel_power_decomp (params : ScrapeParameters) (w : ℝ) (hw : 0 ≤ w) :
    raw_wheel_power w params =
      (9.8067 * (params.rp_wr + params.rp_wb) * Real.sin (Real.arctan (params.ep_g / 100)) +
       9.8067 * (params.rp_wr + params.rp_wb) * Real.cos (Real.arctan (params.ep_g / 100)) *
         params.ep_crr +
       (if w + params.ep_headwind < 0 then
          0.5 * params.rp_a * params.rp_cd * params.ep_rho *
            ((w + params.ep_headwind) * 1000 / 3600) *
            ((w + params.ep_headwind) * 1000 / 3600) * (-1)
        else
          0.5 * params.rp_a * params.rp_cd * params.ep_rho *
            ((w + params.ep_headwind) * 1000 / 3600) *
            ((w + params.ep_headwind) * 1000 / 3600))) *
      (w * 1000 / 3600) := by
  unfold raw_wheel_power total_force calculate_forces
  rw [if_neg (not_lt.2 hw)]

/-! ## Claims -/

/-- C1 (code_bug evidence): at velocity `10` with a `-100` headwind on
flat ground the raw leg power is strictly negative
(`-12406787/48000 ≈ -258.47` W), yet `calculate_power` reports
`braking_power = 0` rather than the positive magnitude
`-raw_leg_power`: the else-branch zeroes `leg_power` before negating it. -/
theorem c1_braking_power_stays_zero :
    raw_leg_power 10 tailwindParams < 0 ∧
      (calculate_power 10 tailwindParams).braking_power = 0 ∧
      (calculate_power 10 tailwindParams).braking_power ≠
        -(raw_leg_power 10 tailwindParams) := by
  have hleg : raw_leg_power 10 tailwindParams = -(12406787 / 48000) := by
    norm_num [raw_leg_power, drive_train_frac, raw_wheel_power, total_force,
      calculate_forces, tailwindParams, defaultParams, Real.arctan_zero,
      Real.sin_zero, Real.cos_zero]
  have hneg : ¬ raw_leg_power 10 tailwindParams > 0 := by
    rw [hleg]; norm_num
  refine ⟨by rw [hleg]; norm_num, ?_, ?_⟩
  · unfold calculate_power
    rw [if_neg hneg]
    norm_num
  · unfold calculate_power
    rw [if_neg hneg, hleg]
    norm_num

/-- C2: the returned `braking_power` is `0` for every velocity and
profile (the else-branch overwrites `leg_power` with `0` before negating
it), hence the effective-power scalar fed to the solver is never
negative. -/
theorem c2_braking_zero_and_scalar_nonneg :
    ∀ (velocity : ℝ) (params : ScrapeParameters),
      (calculate_power velocity params).braking_power = 0 ∧
        0 ≤ pow_dict_to_leg_power (calculate_power velocity params) := by
  intro v p
  constructor
  · unfold calculate_power
    by_cases h : raw_leg_power v p > 0 <;> simp [h]
  · exact effPow_nonneg v p

/-- C3 (counterexample): on the default profile with `hillGradePct = -10`
and target power `0`, the solver returns velocity `0`, not a strictly
positive velocity. -/
theorem c3_counterexample :
    calculate_velocity 0 descentParams = 0 ∧
      ¬ 0 < calculate_velocity 0 descentParams := by
  have h := calculate_velocity_zero_target descentParams
  exact ⟨h, by rw [h]; norm_num⟩

/-- C3 (amended): for the default profile with `hillGradePct = -10` and
target power `0`, `calculate_velocity` returns exactly `0`, and
`calculate_power` at that velocity reports `legPower = 0` and
`brakingPower = 0`. -/
theorem c3_amended :
    calculate_velocity 0 descentParams = 0 ∧
      (calculate_power (calculate_velocity 0 descentParams) descentParams).leg_power = 0 ∧
      (calculate_power (calculate_velocity 0 descentParams) descentParams).braking_power = 0 := by
  have h := calculate_velocity_zero_target descentParams
  rw [h]
  exact ⟨rfl, leg_and_braking_at_velocity_zero descentParams⟩

/-- C4: for every profile, a target power of `0` makes the solver return
exactly `0`: the initial midpoint `0` has wheel power `total_force * 0 = 0`,
so the effective-power scalar is `0` and `|0 - 0| < epsilon` stops the
loop before any refinement. -/
theorem c4_zero_power_returns_zero (params : ScrapeParameters) :
    calculate_velocity 0 params = 0 :=
  calculate_velocity_zero_target params

/-- C5 (counterexample): on the default profile (grade `0`, headwind `0`,
`crr = 0.005`, weights `75 + 10`) the rolling-resistance force at
velocity `0` is `9.8067 * 85 * 0.005 ≠ 0`, so not all three forces
vanish. -/
theorem c5_counterexample :
    ¬ ((calculate_forces 0 defaultParams).f_gravity = 0 ∧
       (calculate_forces 0 defaultParams).f_rolling = 0 ∧
       (calculate_forces 0 defaultParams).f_drag = 0) := by
  intro h
  have hr := h.2.1
  norm_num [calculate_forces, defaultParams, Real.arctan_zero, Real.cos_zero] at hr

/-- C5 (amended): at velocity `0` the drag force is determined by the
headwind alone (the velocity contribution vanishes), and with
`hillGradePct = 0` and `headwind = 0` the gravity and drag forces are
exactly `0` while the rolling force equals
`9.8067 * (riderWeight + bikeWeight) * crr` (zero only when `crr` is). -/
theorem c5_amended (params : ScrapeParameters) :
    ((calculate_forces 0 params).f_drag =
      if params.ep_headwind < 0 then
        0.5 * params.rp_a * params.rp_cd * params.ep_rho *
          (params.ep_headwind * 1000 / 3600) * (params.ep_headwind * 1000 / 3600) * (-1)
      else
        0.5 * params.rp_a * params.rp_cd * params.ep_rho *
          (params.ep_headwind * 1000 / 3600) * (params.ep_headwind * 1000 / 3600)) ∧
    (params.ep_g = 0 → params.ep_headwind = 0 →
      (calculate_forces 0 params).f_gravity = 0 ∧
        (calculate_forces 0 params).f_drag = 0 ∧
        (calculate_forces 0 params).f_rolling =
          9.8067 * (params.rp_wr + params.rp_wb) * params.ep_crr) := by
  constructor
  · show (if (0 : ℝ) + params.ep_headwind < 0 then _ else _) = _
    rw [zero_add]
  · intro hg hw
    unfold calculate_forces
    rw [hg, hw]
    norm_num [Real.arctan_zero]

/-- C6 (counterexample): on the default profile (drag coefficient
`0.51 ≥ 0`, grade `0 ≥ 0`) the effective-power scalar is not
non-decreasing over `[-1000, 1000]`: it is `≈ 15.2 W` at `-10` km/h but
`0` at `0` km/h. -/
theorem c6_counterexample :
    0 ≤ defaultParams.rp_cd ∧ 0 ≤ defaultParams.ep_g ∧
      (-1000 : ℝ) ≤ -10 ∧ (-10 : ℝ) ≤ 0 ∧ (0 : ℝ) ≤ 1000 ∧
      ¬ effPow (-10) defaultParams ≤ effPow 0 defaultParams := by
  refine ⟨by norm_num [defaultParams], by norm_num [defaultParams],
    by norm_num, by norm_num, by norm_num, ?_⟩
  rw [effPow_at_zero]
  have h : effPow (-10) defaultParams = 8282179 / 544320 := by
    norm_num [effPow, pow_dict_to_leg_power, calculate_power, raw_leg_power,
      drive_train_frac, raw_wheel_power, total_force, calculate_forces,
      defaultParams, Real.arctan_zero, Real.sin_zero, Real.cos_zero]
  rw [h]
  norm_num

/-- C6 (amended): for a profile with non-negative area, drag coefficient,
air density, rolling coefficient, total weight and grade, the
effective-power scalar is non-decreasing in velocity over `[0, 1000]`
(over `[-1000, 0)` it is not, see the counterexample). -/
theorem c6_amended (params : ScrapeParameters) (v1 v2 : ℝ)
    (ha : 0 ≤ params.rp_a) (hcd : 0 ≤ params.rp_cd) (hrho : 0 ≤ params.ep_rho)
    (hcrr : 0 ≤ params.ep_crr) (hwt : 0 ≤ params.rp_wr + params.rp_wb)
    (hg : 0 ≤ params.ep_g) (h1 : 0 ≤ v1) (h12 : v1 ≤ v2) (h2 : v2 ≤ 1000) :
    effPow v1 params ≤ effPow v2 params := by
  by_cases hL1 : raw_leg_power v1 params > 0
  case neg =>
    rw [effPow_eq_clip v1, if_neg hL1]
    exact effPow_nonneg v2 params
  case pos =>
    have h1' : 0 ≤ v2 := h1.trans h12
    have hwheel1 : 0 < raw_wheel_power v1 params := by
      by_contra hw
      push_neg at hw
      have hfr : drive_train_frac v1 params = 1 := by
        unfold drive_train_frac
        rw [if_neg (not_lt.2 hw)]
      have hleg1 : raw_leg_power v1 params = raw_wheel_power v1 params := by
        unfold raw_leg_power
        rw [hfr, div_one]
      rw [hleg1] at hL1
      exact absurd hL1 (not_lt.2 hw)
    have hfracpos : 0 < 1 - params.rp_dtl / 100 := by
      by_contra hf
      push_neg at hf
      have hfr : drive_train_frac v1 params = 1 - params.rp_dtl / 100 := by
        unfold drive_train_frac
        rw [if_pos hwheel1]
      have : raw_leg_power v1 params ≤ 0 := by
        unfold raw_leg_power
        rw [hfr]
        exact div_nonpos_of_nonneg_of_nonpos hwheel1.le hf
      exact absurd hL1 (not_lt.2 this)
    have hK : 0 ≤ 0.5 * params.rp_a * params.rp_cd * params.ep_rho := by
      have h05 : (0 : ℝ) ≤ 0.5 := by norm_num
      exact mul_nonneg (mul_nonneg (mul_nonneg h05 ha) hcd) hrho
    have hcG : 0 ≤ 9.8067 * (params.rp_wr + params.rp_wb) *
        Real.sin (Real.arctan (params.ep_g / 100)) := by
      refine mul_nonneg (mul_nonneg (by norm_num) hwt) ?_
      exact sin_arctan_nonneg (by positivity)
    have hcR : 0 ≤ 9.8067 * (params.rp_wr + params.rp_wb) *
        Real.cos (Real.arctan (params.ep_g / 100)) * params.ep_crr := by
      refine mul_nonneg (mul_nonneg (mul_nonneg (by norm_num) hwt) ?_) hcrr
      exact (Real.cos_arctan_pos _).le
    have hD := drag_term_mono (a := v1 + params.ep_headwind) (b := v2 + params.ep_headwind)
      hK (by linarith)
    have hm1 : 0 ≤ v1 * 1000 / 3600 := by positivity
    have hm12 : v1 * 1000 / 3600 ≤ v2 * 1000 / 3600 := by linarith
    have hS1pos : 0 < 9.8067 * (params.rp_wr + params.rp_wb) *
        Real.sin (Real.arctan (params.ep_g / 100)) +
        9.8067 * (params.rp_wr + params.rp_wb) * Real.cos (Real.arctan (params.ep_g / 100)) *
          params.ep_crr +
        (if v1 + params.ep_headwind < 0 then
          0.5 * params.rp_a * params.rp_cd * params.ep_rho *
            ((v1 + params.ep_headwind) * 1000 / 3600) *
            ((v1 + params.ep_headwind) * 1000 / 3600) * (-1)
         else
          0.5 * params.rp_a * params.rp_cd * params.ep_rho *
            ((v1 + params.ep_headwind) * 1000 / 3600) *
            ((v1 + params.ep_headwind) * 1000 / 3600)) := by
      rw [raw_wheel_power_decomp params v1 h1] at hwheel1
      by_contra hS
      push_neg at hS
      nlinarith
    have hS12 : (9.8067 * (params.rp_wr + params.rp_wb) *
        Real.sin (Real.arctan (params.ep_g / 100)) +
        9.8067 * (params.rp_wr + params.rp_wb) * Real.cos (Real.arctan (params.ep_g / 100)) *
          params.ep_crr +
        (if v1 + params.ep_headwind < 0 then
          0.5 * params.rp_a * params.rp_cd * params.ep_rho *
            ((v1 + params.ep_headwind) * 1000 / 3600) *
            ((v1 + params.ep_headwind) * 1000 / 3600) * (-1)
         else
          0.5 * params.rp_a * params.rp_cd * params.ep_rho *
            ((v1 + params.ep_headwind) * 1000 / 3600) *
            ((v1 + params.ep_headwind) * 1000 / 3600))) ≤
        (9.8067 * (params.rp_wr + params.rp_wb) *
        Real.sin (Real.arctan (params.ep_g / 100)) +
        9.8067 * (params.rp_wr + params.rp_wb) * Real.cos (Real.arctan (params.ep_g / 100)) *
          params.ep_crr +
        (if v2 + params.ep_headwind < 0 then
          0.5 * params.rp_a * params.rp_cd * params.ep_rho *
            ((v2 + params.ep_headwind) * 1000 / 3600) *
            ((v2 + params.ep_headwind) * 1000 / 3600) * (-1)
         else
          0.5 * params.rp_a * params.rp_cd * params.ep_rho *
            ((v2 + params.ep_headwind) * 1000 / 3600) *
            ((v2 + params.ep_headwind) * 1000 / 3600))) := by
      linarith
    have hwle : raw_wheel_power v1 params ≤ raw_wheel_power v2 params := by
      rw [raw_wheel_power_decomp params v1 h1, raw_wheel_power_decomp params v2 h1']
      exact mul_le_mul hS12 hm12 hm1 (hS1pos.le.trans hS12)
    have hwheel2 : 0 < raw_wheel_power v2 params := lt_of_lt_of_le hwheel1 hwle
    have hfr1 : drive_train_frac v1 params = 1 - params.rp_dtl / 100 := by
      unfold drive_train_frac
      rw [if_pos hwheel1]
    have hfr2 : drive_train_frac v2 params = 1 - params.rp_dtl / 100 := by
      unfold drive_train_frac
      rw [if_pos hwheel2]
    have hlegle : raw_leg_power v1 params ≤ raw_leg_power v2 params := by
      unfold raw_leg_power
      rw [hfr1, hfr2]
      gcongr
    have hL2 : raw_leg_power v2 params > 0 := by
      have hh : raw_leg_power v2 params =
          raw_wheel_power v2 params / (1 - params.rp_dtl / 100) := by
        unfold raw_leg_power
        rw [hfr2]
      rw [hh]
      exact div_pos hwheel2 hfracpos
    rw [effPow_eq_clip v1, effPow_eq_clip v2, if_pos hL1, if_pos hL2]
    exact hlegle

/-- Witness for C6 (amended) at the default profile between 10 and 20 km/h. -/
theorem c6_amended_witness :
    (0 ≤ defaultParams.rp_a ∧ 0 ≤ defaultParams.rp_cd ∧ 0 ≤ defaultParams.ep_rho ∧
      0 ≤ defaultParams.ep_crr ∧ 0 ≤ defaultParams.rp_wr + defaultParams.rp_wb ∧
      0 ≤ defaultParams.ep_g ∧ (0 : ℝ) ≤ 10 ∧ (10 : ℝ) ≤ 20 ∧ (20 : ℝ) ≤ 1000) ∧
      effPow 10 defaultParams ≤ effPow 20 defaultParams :=
  ⟨⟨by norm_num [defaultParams], by norm_num [defaultParams], by norm_num [defaultParams],
      by norm_num [defaultParams], by norm_num [defaultParams], by norm_num [defaultParams],
      by norm_num, by norm_num, by norm_num⟩,
    c6_amended defaultParams 10 20 (by norm_num [defaultParams]) (by norm_num [defaultParams])
      (by norm_num [defaultParams]) (by norm_num [defaultParams]) (by norm_num [defaultParams])
      (by norm_num [defaultParams]) (by norm_num) (by norm_num) (by norm_num)⟩

/-- Every run of the loop returns the midpoint of the state reached after
at most `fuel + 1` refinements of the initial state. -/
theorem bisectLoop_returns_iterate (power : ℝ) (params : ScrapeParameters) :
    ∀ (fuel : ℕ) (s : ℝ × ℝ × ℝ), ∃ k ≤ fuel + 1,
      bisectLoop power params fuel s = ((bisectStep power params)^[k] s).2.2 := by
  intro fuel
  induction fuel with
  | zero =>
    intro s
    by_cases hc : |effPow s.2.2 params - power| < epsilon
    · exact ⟨0, by norm_num, by rw [bisectLoop_of_conv hc]; rfl⟩
    · refine ⟨1, by norm_num, ?_⟩
      rw [bisectLoop, if_neg hc, Function.iterate_one]
      rfl
  | succ n ih =>
    intro s
    by_cases hc : |effPow s.2.2 params - power| < epsilon
    · exact ⟨0, by norm_num, by rw [bisectLoop_of_conv hc]; rfl⟩
    · obtain ⟨k, hk, hres⟩ := ih (bisectStep power params s)
      refine ⟨k + 1, by omega, ?_⟩
      rw [bisectLoop, if_neg hc, dif_neg (Nat.succ_ne_zero n),
        show n + 1 - 1 = n from rfl, hres, Function.iterate_succ_apply]

/-- Away from `drivetrainLossPct = 100` the drivetrain fraction is never
zero, the leg-power division cannot raise, and the fallible power model
agrees with the total one. -/
theorem calculate_powerE_eq_some (velocity : ℝ) (params : ScrapeParameters)
    (hdtl : params.rp_dtl ≠ 100) :
    calculate_powerE velocity params = some (calculate_power velocity params) := by
  have hfrac : drive_train_frac velocity params ≠ 0 := by
    unfold drive_train_frac
    by_cases h : raw_wheel_power velocity params > 0
    · rw [if_pos h]
      intro h0
      exact hdtl (by linarith)
    · rw [if_neg h]
      norm_num
  unfold calculate_powerE pydiv
  rw [if_neg hfrac]
  rfl

/-- Away from `drivetrainLossPct = 100` the fallible loop, entered with
the current midpoint's dictionary, never errors and computes exactly the
total loop's midpoint. -/
theorem bisectLoopE_eq_some (power : ℝ) (params : ScrapeParameters)
    (hdtl : params.rp_dtl ≠ 100) :
    ∀ (fuel : ℕ) (s : ℝ × ℝ × ℝ),
      bisectLoopE power params fuel s (calculate_power s.2.2 params) =
        some (bisectLoop power params fuel s) := by
  intro fuel
  induction fuel with
  | zero =>
    intro s
    rw [bisectLoopE, bisectLoop,
      show pow_dict_to_leg_power (calculate_power s.2.2 params) = effPow s.2.2 params from rfl]
    by_cases hc : |effPow s.2.2 params - power| < epsilon
    · rw [if_pos hc, if_pos hc]
    · rw [if_neg hc, if_neg hc]
      simp only [calculate_powerE_eq_some _ _ hdtl, Option.some_bind]
      rw [dif_pos trivial, dif_pos trivial]
      simp only [bisectStep]
  | succ n ih =>
    intro s
    rw [bisectLoopE, bisectLoop,
      show pow_dict_to_leg_power (calculate_power s.2.2 params) = effPow s.2.2 params from rfl]
    by_cases hc : |effPow s.2.2 params - power| < epsilon
    · rw [if_pos hc, if_pos hc]
    · rw [if_neg hc, if_neg hc]
      simp only [calculate_powerE_eq_some _ _ hdtl, Option.some_bind]
      rw [dif_neg (show ¬ (n + 1 = 0) by omega), dif_neg (show ¬ (n + 1 = 0) by omega),
        show n + 1 - 1 = n from rfl]
      simp only [bisectStep]
      exact ih _

/-- Away from `drivetrainLossPct = 100` the solver runs to completion
without a division error. -/
theorem calculate_velocityE_eq_some (power : ℝ) (params : ScrapeParameters)
    (hdtl : params.rp_dtl ≠ 100) :
    calculate_velocityE power params = some (calculate_velocity power params) := by
  unfold calculate_velocityE
  rw [calculate_powerE_eq_some _ _ hdtl, Option.some_bind]
  exact bisectLoopE_eq_some power params hdtl 100 (-1000, 1000, 0)

/-- C8 (counterexample): with `drivetrainLossPct = 100` (the top of the
documented 0-100 range) and target power `300` on otherwise-default
parameters, the first refinement evaluates `calculate_power` at `500`
km/h, where the wheel power is positive and the drivetrain fraction is
`1 - 100/100 = 0`, so `wheel_power / drive_train_frac` raises a
`ZeroDivisionError` that escapes `calculate_velocity`: the solver does
not return a midpoint. -/
theorem c8_counterexample :
    calculate_velocityE 300 lossyParams = none ∧
      ∀ v : ℝ, calculate_velocityE 300 lossyParams ≠ some v := by
  have hd0 : calculate_powerE 0 lossyParams =
      some { leg_power := 0, wheel_power := 0, drive_train_loss := 0,
             braking_power := 0 } := by
    simp [calculate_powerE, pydiv, drive_train_frac, raw_wheel_power_at_zero]
  have hw500 : raw_wheel_power 500 lossyParams > 0 := by
    norm_num [raw_wheel_power, total_force, calculate_forces, lossyParams,
      defaultParams, Real.arctan_zero, Real.sin_zero, Real.cos_zero]
  have hf500 : drive_train_frac 500 lossyParams = 0 := by
    unfold drive_train_frac
    rw [if_pos hw500]
    norm_num [lossyParams, defaultParams]
  have hp500 : calculate_powerE 500 lossyParams = none := by
    unfold calculate_powerE pydiv
    rw [hf500]
    simp
  have hnone : calculate_velocityE 300 lossyParams = none := by
    unfold calculate_velocityE
    rw [hd0, Option.some_bind, bisectLoopE]
    norm_num [pow_dict_to_leg_power, epsilon, abs_sub_lt_iff, hp500]
  refine ⟨hnone, ?_⟩
  intro v
  rw [hnone]
  exact Option.noConfusion

/-- C8 (amended): for every target power and every profile with
`drivetrainLossPct ≠ 100`, the solver raises no error and terminates with
a bisection midpoint: the fallible run returns `some` of the total one,
`calculate_velocity` is the loop started at bounds `[-1000, 1000]` with
midpoint `0` and tolerance `epsilon = 1e-6`, and its result is the
midpoint of the state reached after at most `101` refinements (the
counter starts at `0` and the loop aborts once it exceeds `100`);
non-convergence is not an error, the current midpoint is returned.  At
`drivetrainLossPct = 100` a division error can escape instead, see the
counterexample. -/
theorem c8_amended (power : ℝ) (params : ScrapeParameters)
    (hdtl : params.rp_dtl ≠ 100) :
    calculate_velocityE power params = some (calculate_velocity power params) ∧
      calculate_velocity power params = bisectLoop power params 100 (-1000, 1000, 0) ∧
      epsilon = 1 / 1000000 ∧
      ∃ k ≤ 101, calculate_velocity power params =
        ((bisectStep power params)^[k] (-1000, 1000, 0)).2.2 := by
  refine ⟨calculate_velocityE_eq_some power params hdtl, rfl, by norm_num [epsilon], ?_⟩
  obtain ⟨k, hk, hres⟩ := bisectLoop_returns_iterate power params 100 (-1000, 1000, 0)
  exact ⟨k, by omega, hres⟩

/-- Witness for C8 (amended) at target power 300 on the default profile
(drivetrain loss 2). -/
theorem c8_amended_witness :
    defaultParams.rp_dtl ≠ 100 ∧
      (calculate_velocityE 300 defaultParams =
          some (calculate_velocity 300 defaultParams) ∧
        calculate_velocity 300 defaultParams =
          bisectLoop 300 defaultParams 100 (-1000, 1000, 0) ∧
        epsilon = 1 / 1000000 ∧
        ∃ k ≤ 101, calculate_velocity 300 defaultParams =
          ((bisectStep 300 defaultParams)^[k] (-1000, 1000, 0)).2.2) :=
  ⟨by norm_num [defaultParams],
    c8_amended 300 defaultParams (by norm_num [defaultParams])⟩

theorem pythonRange_mem (a b p : ℤ) : p ∈ pythonRange a b ↔ a ≤ p ∧ p < b := by
  unfold pythonRange
  simp only [List.mem_map, List.mem_range]
  constructor
  · rintro ⟨i, hi, rfl⟩
    omega
  · rintro ⟨hap, hpb⟩
    exact ⟨(p - a).toNat, by omega, by omega⟩

theorem pythonRange_chain (a b : ℤ) :
    List.Chain' (fun x y => x < y) (pythonRange a b) := by
  unfold pythonRange
  refine List.chain'_map_of_chain' (fun i : ℕ => a + (i : ℤ)) ?_
    ((List.pairwise_lt_range _).chain')
  intro x y h
  show a + (x : ℤ) < a + (y : ℤ)
  omega

theorem ceil_04_300 : ⌈(0.4 : ℝ) * 300⌉ = 120 := by
  rw [show (0.4 : ℝ) * 300 = ((120 : ℤ) : ℝ) by norm_num]
  exact Int.ceil_intCast 120

theorem ceil_13_300 : ⌈(1.3 : ℝ) * 300⌉ = 390 := by
  rw [show (1.3 : ℝ) * 300 = ((390 : ℤ) : ℝ) by norm_num]
  exact Int.ceil_intCast 390

/-- C9: the sweep iterates the integers from `⌈0.4 ftp⌉` up to
`⌈1.3 ftp⌉ - 1` in ascending order; each point carries
`tss = (p / ftp)^2 * duration * 100`; with `ftp = 300` the range is
`120..389` inclusive and at `p = 300` the intensity factor is `1`, so
`tss = duration * 100`. -/
theorem c9_sweep_range_and_tss :
    (∀ (ftp : ℝ) (p : ℤ), p ∈ sweepPowers ftp ↔ ⌈0.4 * ftp⌉ ≤ p ∧ p < ⌈1.3 * ftp⌉) ∧
    (∀ ftp : ℝ, List.Chain' (fun x y => x < y) (sweepPowers ftp)) ∧
    (∀ p : ℤ, p ∈ sweepPowers 300 ↔ 120 ≤ p ∧ p ≤ 389) ∧
    (∀ (ftp race_distance : ℝ) (params : ScrapeParameters) (p : ℤ),
      (sweepPoint ftp race_distance params p).map (fun e => e.tss) =
        (sweepPoint ftp race_distance params p).map
          (fun e => ((p : ℝ) / ftp) ^ 2 * e.duration * 100)) ∧
    (∀ (race_distance : ℝ) (params : ScrapeParameters),
      (sweepPoint 300 race_distance params 300).map (fun e => e.tss) =
        (sweepPoint 300 race_distance params 300).map (fun e => e.duration * 100)) := by
  refine ⟨?_, ?_, ?_, ?_, ?_⟩
  · intro ftp p
    exact pythonRange_mem _ _ p
  · intro ftp
    exact pythonRange_chain _ _
  · intro p
    rw [show sweepPowers 300 = pythonRange 120 390 by
      unfold sweepPowers; rw [ceil_04_300, ceil_13_300], pythonRange_mem]
    omega
  · intro ftp race_distance params p
    by_cases hf : ftp = 0
    · simp [sweepPoint, pydiv, hf]
    · by_cases hs : calculate_velocity (p : ℝ) params = 0
      · simp [sweepPoint, pydiv, hf, hs, Function.comp]
      · simp [sweepPoint, pydiv, hf, hs, Function.comp]
  · intro race_distance params
    by_cases hs : calculate_velocity (300 : ℝ) params = 0
    · simp [sweepPoint, pydiv, hs, Function.comp]
    · simp [sweepPoint, pydiv, hs, Function.comp]

theorem sweepPowers_at_zero : sweepPowers 0 = [] := by
  unfold sweepPowers pythonRange
  rw [show (0.4 : ℝ) * 0 = ((0 : ℤ) : ℝ) by norm_num,
    show (1.3 : ℝ) * 0 = ((0 : ℤ) : ℝ) by norm_num, Int.ceil_intCast]
  simp

theorem sweepPoint_none_iff (ftp race_distance : ℝ) (params : ScrapeParameters) (p : ℤ) :
    sweepPoint ftp race_distance params p = none ↔
      ftp = 0 ∨ calculate_velocity (p : ℝ) params = 0 := by
  unfold sweepPoint pydiv
  by_cases hf : ftp = 0
  · simp [hf]
  · by_cases hs : calculate_velocity (p : ℝ) params = 0
    · simp [hf, hs]
    · simp [hf, hs]

theorem runSweep_none_iff (ftp race_distance : ℝ) (params : ScrapeParameters) :
    ∀ ps : List ℤ, runSweep ftp race_distance params ps = none ↔
      ∃ p ∈ ps, sweepPoint ftp race_distance params p = none := by
  intro ps
  induction ps with
  | nil => simp [runSweep]
  | cons p ps ih =>
    simp only [runSweep]
    cases hp : sweepPoint ftp race_distance params p with
    | none =>
      simp only [hp, Option.none_bind]
      constructor
      · intro _
        exact ⟨p, List.mem_cons_self p ps, hp⟩
      · intro _
        trivial
    | some e =>
      simp only [hp, Option.some_bind]
      rw [Option.map_eq_none', ih]
      constructor
      · rintro ⟨q, hq, hqn⟩
        exact ⟨q, List.mem_cons_of_mem p hq, hqn⟩
      · rintro ⟨q, hq, hqn⟩
        rcases List.mem_cons.mp hq with rfl | hq'
        · rw [hp] at hqn
          exact absurd hqn (Option.some_ne_none e)
        · exact ⟨q, hq', hqn⟩

/-- C10: the sweep's duration division `race_distance / speed` is
unguarded — the sweep errors out precisely when the solver returns
velocity `0` for some power value of the range (the error is neither
caught nor special-cased; for power values inside a non-empty range the
`power / ftp` division cannot be the failing one, since a non-empty
range forces `ftp ≠ 0`). -/
theorem c10_division_error_propagates (ftp race_distance : ℝ) (params : ScrapeParameters) :
    update_graph ftp race_distance params = none ↔
      ∃ p ∈ sweepPowers ftp, calculate_velocity (p : ℝ) params = 0 := by
  rw [update_graph, runSweep_none_iff]
  constructor
  · rintro ⟨p, hp, hnone⟩
    rcases (sweepPoint_none_iff ftp race_distance params p).mp hnone with hf | hs
    · rw [hf, sweepPowers_at_zero] at hp
      exact absurd hp (List.not_mem_nil p)
    · exact ⟨p, hp, hs⟩
  · rintro ⟨p, hp, hs⟩
    exact ⟨p, hp, (sweepPoint_none_iff ftp race_distance params p).mpr (Or.inr hs)⟩

/-- Closed form of the effective-power scalar on the default profile for
strictly positive velocities: rolling force `9.8067 * 85 * 0.005`, drag
constant `0.5 * 0.5 * 0.51 * 1.22`, drivetrain fraction `0.98`. -/
theorem effPow_default_pos (v : ℝ) (hv : 0 < v) :
    effPow v defaultParams =
      (4.1678475 + 0.15555 * (v * 1000 / 3600) * (v * 1000 / 3600)) *
        (v * 1000 / 3600) / 0.98 := by
  have h1 : ¬ v < 0 := not_lt.2 hv.le
  have h2 : ¬ v + (0 : ℝ) < 0 := by
    rw [add_zero]
    exact h1
  have hw : raw_wheel_power v defaultParams =
      (4.1678475 + 0.15555 * (v * 1000 / 3600) * (v * 1000 / 3600)) *
        (v * 1000 / 3600) := by
    unfold raw_wheel_power total_force calculate_forces defaultParams
    rw [if_neg h1, if_neg h2]
    rw [show ((0 : ℝ) / 100) = 0 by norm_num, Real.arctan_zero, Real.sin_zero,
      Real.cos_zero]
    ring_nf
  have hx : 0 < v * 1000 / 3600 := by positivity
  have hpos : 0 < raw_wheel_power v defaultParams := by
    rw [hw]
    have hA : 0 < 4.1678475 + 0.15555 * (v * 1000 / 3600) * (v * 1000 / 3600) := by
      nlinarith [mul_self_nonneg (v * 1000 / 3600)]
    exact mul_pos hA hx
  have hfrac : drive_train_frac v defaultParams = 0.98 := by
    unfold drive_train_frac
    rw [if_pos hpos]
    norm_num [defaultParams]
  have hleg : raw_leg_power v defaultParams =
      (4.1678475 + 0.15555 * (v * 1000 / 3600) * (v * 1000 / 3600)) *
        (v * 1000 / 3600) / 0.98 := by
    unfold raw_leg_power
    rw [hw, hfrac]
  have hlegpos : raw_leg_power v defaultParams > 0 := by
    rw [hleg]
    positivity
  rw [effPow_eq_clip, if_pos hlegpos, hleg]

/-- C7 (counterexample): the degenerate but admissible profile with zero
drag coefficient and zero rolling resistance (grade `0`, headwind `0`)
needs zero power at every velocity, so the solver inverts the power at
`10 km/h` to velocity `0`, which is not within `1e-4` of `10`. -/
theorem c7_counterexample :
    zeroDragParams.ep_g = 0 ∧ zeroDragParams.ep_headwind = 0 ∧
      ¬ |calculate_velocity (effPow 10 zeroDragParams) zeroDragParams - 10| ≤ 0.0001 := by
  refine ⟨rfl, rfl, ?_⟩
  have he : effPow 10 zeroDragParams = 0 := by
    norm_num [effPow, pow_dict_to_leg_power, calculate_power, raw_leg_power,
      drive_train_frac, raw_wheel_power, total_force, calculate_forces,
      zeroDragParams, defaultParams, Real.arctan_zero, Real.sin_zero, Real.cos_zero]
  rw [he, calculate_velocity_zero_target]
  norm_num

/-- Witness for C5 (amended) at the default profile. -/
theorem c5_amended_witness :
    defaultParams.ep_g = 0 ∧ defaultParams.ep_headwind = 0 ∧
      ((calculate_forces 0 defaultParams).f_gravity = 0 ∧
        (calculate_forces 0 defaultParams).f_drag = 0 ∧
        (calculate_forces 0 defaultParams).f_rolling =
          9.8067 * (defaultParams.rp_wr + defaultParams.rp_wb) * defaultParams.ep_crr) :=
  ⟨rfl, rfl, (c5_amended defaultParams).2 rfl rfl⟩

/-- Bisection run of the solver on the default profile for the exact
target power of 10 km/h, replayed refinement by refinement. -/
theorem roundtrip_default_10 :
    |calculate_velocity (8282179 / 544320) defaultParams - 10| ≤ 0.0001 := by
  unfold calculate_velocity
  have e0 : effPow (0 : ℝ) defaultParams = 0 := effPow_at_zero defaultParams
  rw [bisectLoop_up (show ¬ (100 : ℕ) = 0 by norm_num) e0
    (show ¬ |(0 : ℝ) - (8282179 / 544320)| < epsilon by
      rw [abs_sub_lt_iff]; norm_num [epsilon])
    (show ¬ (0 : ℝ) > (8282179 / 544320) by norm_num)
    (show ((1000 : ℝ) + (0)) / 2 = (500) by norm_num)
    (show (100 : ℕ) - 1 = 99 by norm_num)]
  have e1 : effPow (500 : ℝ) defaultParams = (23179473395 / 54432) := by
    rw [effPow_default_pos (500) (by norm_num)]
    norm_num
  rw [bisectLoop_down (show ¬ (99 : ℕ) = 0 by norm_num) e1
    (show ¬ |(23179473395 / 54432 : ℝ) - (8282179 / 544320)| < epsilon by
      rw [abs_sub_lt_iff]; norm_num [epsilon])
    (show (23179473395 / 54432 : ℝ) > (8282179 / 544320) by norm_num)
    (show ((500 : ℝ) + (0)) / 2 = (250) by norm_num)
    (show (99 : ℕ) - 1 = 98 by norm_num)]
  have e2 : effPow (250 : ℝ) defaultParams = (40732876265 / 762048) := by
    rw [effPow_default_pos (250) (by norm_num)]
    norm_num
  rw [bisectLoop_down (show ¬ (98 : ℕ) = 0 by norm_num) e2
    (show ¬ |(40732876265 / 762048 : ℝ) - (8282179 / 544320)| < epsilon by
      rw [abs_sub_lt_iff]; norm_num [epsilon])
    (show (40732876265 / 762048 : ℝ) > (8282179 / 544320) by norm_num)
    (show ((250 : ℝ) + (0)) / 2 = (125) by norm_num)
    (show (98 : ℕ) - 1 = 97 by norm_num)]
  have e3 : effPow (125 : ℝ) defaultParams = (5176008445 / 762048) := by
    rw [effPow_default_pos (125) (by norm_num)]
    norm_num
  rw [bisectLoop_down (show ¬ (97 : ℕ) = 0 by norm_num) e3
    (show ¬ |(5176008445 / 762048 : ℝ) - (8282179 / 544320)| < epsilon by
      rw [abs_sub_lt_iff]; norm_num [epsilon])
    (show (5176008445 / 762048 : ℝ) > (8282179 / 544320) by norm_num)
    (show ((125 : ℝ) + (0)) / 2 = (125 / 2) by norm_num)
    (show (97 : ℕ) - 1 = 96 by norm_num)]
  have e4 : effPow (125 / 2 : ℝ) defaultParams = (225045065 / 248832) := by
    rw [effPow_default_pos (125 / 2) (by norm_num)]
    norm_num
  rw [bisectLoop_down (show ¬ (96 : ℕ) = 0 by norm_num) e4
    (show ¬ |(225045065 / 248832 : ℝ) - (8282179 / 544320)| < epsilon by
      rw [abs_sub_lt_iff]; norm_num [epsilon])
    (show (225045065 / 248832 : ℝ) > (8282179 / 544320) by norm_num)
    (show ((125 / 2 : ℝ) + (0)) / 2 = (125 / 4) by norm_num)
    (show (96 : ℕ) - 1 = 95 by norm_num)]
  have e5 : effPow (125 / 4 : ℝ) defaultParams = (13727973365 / 97542144) := by
    rw [effPow_default_pos (125 / 4) (by norm_num)]
    norm_num
  rw [bisectLoop_down (show ¬ (95 : ℕ) = 0 by norm_num) e5
    (show ¬ |(13727973365 / 97542144 : ℝ) - (8282179 / 544320)| < epsilon by
      rw [abs_sub_lt_iff]; norm_num [epsilon])
    (show (13727973365 / 97542144 : ℝ) > (8282179 / 544320) by norm_num)
    (show ((125 / 4 : ℝ) + (0)) / 2 = (125 / 8) by norm_num)
    (show (95 : ℕ) - 1 = 94 by norm_num)]
  have e6 : effPow (125 / 8 : ℝ) defaultParams = (24531034085 / 780337152) := by
    rw [effPow_default_pos (125 / 8) (by norm_num)]
    norm_num
  rw [bisectLoop_down (show ¬ (94 : ℕ) = 0 by norm_num) e6
    (show ¬ |(24531034085 / 780337152 : ℝ) - (8282179 / 544320)| < epsilon by
      rw [abs_sub_lt_iff]; norm_num [epsilon])
    (show (24531034085 / 780337152 : ℝ) > (8282179 / 544320) by norm_num)
    (show ((125 / 8 : ℝ) + (0)) / 2 = (125 / 16) by norm_num)
    (show (94 : ℕ) - 1 = 93 by norm_num)]
  have e7 : effPow (125 / 16 : ℝ) defaultParams = (9677610995 / 891813888) := by
    rw [effPow_default_pos (125 / 16) (by norm_num)]
    norm_num
  rw [bisectLoop_up (show ¬ (93 : ℕ) = 0 by norm_num) e7
    (show ¬ |(9677610995 / 891813888 : ℝ) - (8282179 / 544320)| < epsilon by
      rw [abs_sub_lt_iff]; norm_num [epsilon])
    (show ¬ (9677610995 / 891813888 : ℝ) > (8282179 / 544320) by norm_num)
    (show ((125 / 8 : ℝ) + (125 / 16)) / 2 = (375 / 32) by norm_num)
    (show (93 : ℕ) - 1 = 92 by norm_num)]
  have e8 : effPow (375 / 32 : ℝ) defaultParams = (35734208165 / 1849688064) := by
    rw [effPow_default_pos (375 / 32) (by norm_num)]
    norm_num
  rw [bisectLoop_down (show ¬ (92 : ℕ) = 0 by norm_num) e8
    (show ¬ |(35734208165 / 1849688064 : ℝ) - (8282179 / 544320)| < epsilon by
      rw [abs_sub_lt_iff]; norm_num [epsilon])
    (show (35734208165 / 1849688064 : ℝ) > (8282179 / 544320) by norm_num)
    (show ((375 / 32 : ℝ) + (125 / 16)) / 2 = (625 / 64) by norm_num)
    (show (92 : ℕ) - 1 = 91 by norm_num)]
  have e9 : effPow (625 / 64 : ℝ) defaultParams = (5875175047825 / 399532621824) := by
    rw [effPow_default_pos (625 / 64) (by norm_num)]
    norm_num
  rw [bisectLoop_up (show ¬ (91 : ℕ) = 0 by norm_num) e9
    (show ¬ |(5875175047825 / 399532621824 : ℝ) - (8282179 / 544320)| < epsilon by
      rw [abs_sub_lt_iff]; norm_num [epsilon])
    (show ¬ (5875175047825 / 399532621824 : ℝ) > (8282179 / 544320) by norm_num)
    (show ((375 / 32 : ℝ) + (625 / 64)) / 2 = (1375 / 128) by norm_num)
    (show (91 : ℕ) - 1 = 90 by norm_num)]
  have e10 : effPow (1375 / 128 : ℝ) defaultParams = (54040866592735 / 3196260974592) := by
    rw [effPow_default_pos (1375 / 128) (by norm_num)]
    norm_num
  rw [bisectLoop_down (show ¬ (90 : ℕ) = 0 by norm_num) e10
    (show ¬ |(54040866592735 / 3196260974592 : ℝ) - (8282179 / 544320)| < epsilon by
      rw [abs_sub_lt_iff]; norm_num [epsilon])
    (show (54040866592735 / 3196260974592 : ℝ) > (8282179 / 544320) by norm_num)
    (show ((1375 / 128 : ℝ) + (625 / 64)) / 2 = (2625 / 256) by norm_num)
    (show (90 : ℕ) - 1 = 89 by norm_num)]
  have e11 : effPow (2625 / 256 : ℝ) defaultParams = (2135085025685 / 135291469824) := by
    rw [effPow_default_pos (2625 / 256) (by norm_num)]
    norm_num
  rw [bisectLoop_down (show ¬ (89 : ℕ) = 0 by norm_num) e11
    (show ¬ |(2135085025685 / 135291469824 : ℝ) - (8282179 / 544320)| < epsilon by
      rw [abs_sub_lt_iff]; norm_num [epsilon])
    (show (2135085025685 / 135291469824 : ℝ) > (8282179 / 544320) by norm_num)
    (show ((2625 / 256 : ℝ) + (625 / 64)) / 2 = (5125 / 512) by norm_num)
    (show (89 : ℕ) - 1 = 88 by norm_num)]
  have e12 : effPow (5125 / 512 : ℝ) defaultParams = (3116923476426685 / 204560702373888) := by
    rw [effPow_default_pos (5125 / 512) (by norm_num)]
    norm_num
  rw [bisectLoop_down (show ¬ (88 : ℕ) = 0 by norm_num) e12
    (show ¬ |(3116923476426685 / 204560702373888 : ℝ) - (8282179 / 544320)| < epsilon by
      rw [abs_sub_lt_iff]; norm_num [epsilon])
    (show (3116923476426685 / 204560702373888 : ℝ) > (8282179 / 544320) by norm_num)
    (show ((5125 / 512 : ℝ) + (625 / 64)) / 2 = (10125 / 1024) by norm_num)
    (show (88 : ℕ) - 1 = 87 by norm_num)]
  have e13 : effPow (10125 / 1024 : ℝ) defaultParams = (100813133967255 / 6734508720128) := by
    rw [effPow_default_pos (10125 / 1024) (by norm_num)]
    norm_num
  rw [bisectLoop_up (show ¬ (87 : ℕ) = 0 by norm_num) e13
    (show ¬ |(100813133967255 / 6734508720128 : ℝ) - (8282179 / 544320)| < epsilon by
      rw [abs_sub_lt_iff]; norm_num [epsilon])
    (show ¬ (100813133967255 / 6734508720128 : ℝ) > (8282179 / 544320) by norm_num)
    (show ((5125 / 512 : ℝ) + (10125 / 1024)) / 2 = (20375 / 2048) by norm_num)
    (show (87 : ℕ) - 1 = 86 by norm_num)]
  have e14 : effPow (20375 / 2048 : ℝ) defaultParams = (28246709340249665 / 1870269278846976) := by
    rw [effPow_default_pos (20375 / 2048) (by norm_num)]
    norm_num
  rw [bisectLoop_up (show ¬ (86 : ℕ) = 0 by norm_num) e14
    (show ¬ |(28246709340249665 / 1870269278846976 : ℝ) - (8282179 / 544320)| < epsilon by
      rw [abs_sub_lt_iff]; norm_num [epsilon])
    (show ¬ (28246709340249665 / 1870269278846976 : ℝ) > (8282179 / 544320) by norm_num)
    (show ((5125 / 512 : ℝ) + (20375 / 2048)) / 2 = (40875 / 4096) by norm_num)
    (show (86 : ℕ) - 1 = 85 by norm_num)]
  have e15 : effPow (40875 / 4096 : ℝ) defaultParams = (58845568035229865 / 3879077022793728) := by
    rw [effPow_default_pos (40875 / 4096) (by norm_num)]
    norm_num
  rw [bisectLoop_up (show ¬ (85 : ℕ) = 0 by norm_num) e15
    (show ¬ |(58845568035229865 / 3879077022793728 : ℝ) - (8282179 / 544320)| < epsilon by
      rw [abs_sub_lt_iff]; norm_num [epsilon])
    (show ¬ (58845568035229865 / 3879077022793728 : ℝ) > (8282179 / 544320) by norm_num)
    (show ((5125 / 512 : ℝ) + (40875 / 4096)) / 2 = (81875 / 8192) by norm_num)
    (show (85 : ℕ) - 1 = 84 by norm_num)]
  have e16 : effPow (81875 / 8192 : ℝ) defaultParams = (12738760728063785675 / 837880636923445248) := by
    rw [effPow_default_pos (81875 / 8192) (by norm_num)]
    norm_num
  rw [bisectLoop_up (show ¬ (84 : ℕ) = 0 by norm_num) e16
    (show ¬ |(12738760728063785675 / 837880636923445248 : ℝ) - (8282179 / 544320)| < epsilon by
      rw [abs_sub_lt_iff]; norm_num [epsilon])
    (show ¬ (12738760728063785675 / 837880636923445248 : ℝ) > (8282179 / 544320) by norm_num)
    (show ((5125 / 512 : ℝ) + (81875 / 8192)) / 2 = (163875 / 16384) by norm_num)
    (show (84 : ℕ) - 1 = 83 by norm_num)]
  have e17 : effPow (163875 / 16384 : ℝ) defaultParams = (539802525506472535 / 35465847065542656) := by
    rw [effPow_default_pos (163875 / 16384) (by norm_num)]
    norm_num
  rw [bisectLoop_down (show ¬ (83 : ℕ) = 0 by norm_num) e17
    (show ¬ |(539802525506472535 / 35465847065542656 : ℝ) - (8282179 / 544320)| < epsilon by
      rw [abs_sub_lt_iff]; norm_num [epsilon])
    (show (539802525506472535 / 35465847065542656 : ℝ) > (8282179 / 544320) by norm_num)
    (show ((163875 / 16384 : ℝ) + (81875 / 8192)) / 2 = (327625 / 32768) by norm_num)
    (show (83 : ℕ) - 1 = 82 by norm_num)]
  have e18 : effPow (327625 / 32768 : ℝ) defaultParams = (116532996136100279455 / 7660622966157213696) := by
    rw [effPow_default_pos (327625 / 32768) (by norm_num)]
    norm_num
  rw [bisectLoop_up (show ¬ (82 : ℕ) = 0 by norm_num) e18
    (show ¬ |(116532996136100279455 / 7660622966157213696 : ℝ) - (8282179 / 544320)| < epsilon by
      rw [abs_sub_lt_iff]; norm_num [epsilon])
    (show ¬ (116532996136100279455 / 7660622966157213696 : ℝ) > (8282179 / 544320) by norm_num)
    (show ((163875 / 16384 : ℝ) + (327625 / 32768)) / 2 = (655375 / 65536) by norm_num)
    (show (82 : ℕ) - 1 = 81 by norm_num)]
  have e19 : effPow (655375 / 65536 : ℝ) defaultParams = (133217334832389959455 / 8754997675608244224) := by
    rw [effPow_default_pos (655375 / 65536) (by norm_num)]
    norm_num
  rw [bisectLoop_down (show ¬ (81 : ℕ) = 0 by norm_num) e19
    (show ¬ |(133217334832389959455 / 8754997675608244224 : ℝ) - (8282179 / 544320)| < epsilon by
      rw [abs_sub_lt_iff]; norm_num [epsilon])
    (show (133217334832389959455 / 8754997675608244224 : ℝ) > (8282179 / 544320) by norm_num)
    (show ((655375 / 65536 : ℝ) + (327625 / 32768)) / 2 = (1310625 / 131072) by norm_num)
    (show (81 : ℕ) - 1 = 80 by norm_num)]
  have e20 : effPow (1310625 / 131072 : ℝ) defaultParams = (214872380424245202075 / 14123288431433875456) := by
    rw [effPow_default_pos (1310625 / 131072) (by norm_num)]
    norm_num
  rw [bisectLoop_up (show ¬ (80 : ℕ) = 0 by norm_num) e20
    (show ¬ |(214872380424245202075 / 14123288431433875456 : ℝ) - (8282179 / 544320)| < epsilon by
      rw [abs_sub_lt_iff]; norm_num [epsilon])
    (show ¬ (214872380424245202075 / 14123288431433875456 : ℝ) > (8282179 / 544320) by norm_num)
    (show ((655375 / 65536 : ℝ) + (1310625 / 131072)) / 2 = (2621375 / 262144) by norm_num)
    (show (80 : ℕ) - 1 = 79 by norm_num)]
  have e21 : effPow (2621375 / 262144 : ℝ) defaultParams = (417740734152436790889215 / 27455672710707453886464) := by
    rw [effPow_default_pos (2621375 / 262144) (by norm_num)]
    norm_num
  rw [bisectLoop_up (show ¬ (79 : ℕ) = 0 by norm_num) e21
    (show ¬ |(417740734152436790889215 / 27455672710707453886464 : ℝ) - (8282179 / 544320)| < epsilon by
      rw [abs_sub_lt_iff]; norm_num [epsilon])
    (show ¬ (417740734152436790889215 / 27455672710707453886464 : ℝ) > (8282179 / 544320) by norm_num)
    (show ((655375 / 65536 : ℝ) + (2621375 / 262144)) / 2 = (5242875 / 524288) by norm_num)
    (show (79 : ℕ) - 1 = 78 by norm_num)]
  have e22 : effPow (5242875 / 524288 : ℝ) defaultParams = (17682757584513134551295 / 1162144876643701751808) := by
    rw [effPow_default_pos (5242875 / 524288) (by norm_num)]
    norm_num
  rw [bisectLoop_up (show ¬ (78 : ℕ) = 0 by norm_num) e22
    (show ¬ |(17682757584513134551295 / 1162144876643701751808 : ℝ) - (8282179 / 544320)| < epsilon by
      rw [abs_sub_lt_iff]; norm_num [epsilon])
    (show ¬ (17682757584513134551295 / 1162144876643701751808 : ℝ) > (8282179 / 544320) by norm_num)
    (show ((655375 / 65536 : ℝ) + (5242875 / 524288)) / 2 = (10485875 / 1048576) by norm_num)
    (show (78 : ℕ) - 1 = 77 by norm_num)]
  have e23 : effPow (10485875 / 1048576 : ℝ) defaultParams = (26736790716443367781616555 / 1757163053485277048733696) := by
    rw [effPow_default_pos (10485875 / 1048576) (by norm_num)]
    norm_num
  rw [bisectLoop_down (show ¬ (77 : ℕ) = 0 by norm_num) e23
    (show ¬ |(26736790716443367781616555 / 1757163053485277048733696 : ℝ) - (8282179 / 544320)| < epsilon by
      rw [abs_sub_lt_iff]; norm_num [epsilon])
    (show (26736790716443367781616555 / 1757163053485277048733696 : ℝ) > (8282179 / 544320) by norm_num)
    (show ((10485875 / 1048576 : ℝ) + (5242875 / 524288)) / 2 = (20971625 / 2097152) by norm_num)
    (show (77 : ℕ) - 1 = 76 by norm_num)]
  have e24 : effPow (20971625 / 2097152 : ℝ) defaultParams = (30556068675973117281825215 / 2008186346840316627124224) := by
    rw [effPow_default_pos (20971625 / 2097152) (by norm_num)]
    norm_num
  rw [bisectLoop_down (show ¬ (76 : ℕ) = 0 by norm_num) e24
    (show ¬ |(30556068675973117281825215 / 2008186346840316627124224 : ℝ) - (8282179 / 544320)| < epsilon by
      rw [abs_sub_lt_iff]; norm_num [epsilon])
    (show (30556068675973117281825215 / 2008186346840316627124224 : ℝ) > (8282179 / 544320) by norm_num)
    (show ((20971625 / 2097152 : ℝ) + (5242875 / 524288)) / 2 = (41943125 / 4194304) by norm_num)
    (show (76 : ℕ) - 1 = 75 by norm_num)]
  have e25 : effPow (41943125 / 4194304 : ℝ) defaultParams = (244447495126590948651711275 / 16065490774722533016993792) := by
    rw [effPow_default_pos (41943125 / 4194304) (by norm_num)]
    norm_num
  rw [bisectLoop_down (show ¬ (75 : ℕ) = 0 by norm_num) e25
    (show ¬ |(244447495126590948651711275 / 16065490774722533016993792 : ℝ) - (8282179 / 544320)| < epsilon by
      rw [abs_sub_lt_iff]; norm_num [epsilon])
    (show (244447495126590948651711275 / 16065490774722533016993792 : ℝ) > (8282179 / 544320) by norm_num)
    (show ((41943125 / 4194304 : ℝ) + (5242875 / 524288)) / 2 = (83886125 / 8388608) by norm_num)
    (show (75 : ℕ) - 1 = 74 by norm_num)]
  have e26 : effPow (83886125 / 8388608 : ℝ) defaultParams = (13689030207276826318749664565 / 899667483384461848951652352) := by
    rw [effPow_default_pos (83886125 / 8388608) (by norm_num)]
    norm_num
  rw [bisectLoop_down (show ¬ (74 : ℕ) = 0 by norm_num) e26
    (show ¬ |(13689030207276826318749664565 / 899667483384461848951652352 : ℝ) - (8282179 / 544320)| < epsilon by
      rw [abs_sub_lt_iff]; norm_num [epsilon])
    (show (13689030207276826318749664565 / 899667483384461848951652352 : ℝ) > (8282179 / 544320) by norm_num)
    (show ((83886125 / 8388608 : ℝ) + (5242875 / 524288)) / 2 = (167772125 / 16777216) by norm_num)
    (show (74 : ℕ) - 1 = 73 by norm_num)]
  have e27 : effPow (167772125 / 16777216 : ℝ) defaultParams = (15644589082726838988659452115 / 1028191409582242113087602688) := by
    rw [effPow_default_pos (167772125 / 16777216) (by norm_num)]
    norm_num
  rw [bisectLoop_up (show ¬ (73 : ℕ) = 0 by norm_num) e27
    (show ¬ |(15644589082726838988659452115 / 1028191409582242113087602688 : ℝ) - (8282179 / 544320)| < epsilon by
      rw [abs_sub_lt_iff]; norm_num [epsilon])
    (show ¬ (15644589082726838988659452115 / 1028191409582242113087602688 : ℝ) > (8282179 / 544320) by norm_num)
    (show ((83886125 / 8388608 : ℝ) + (167772125 / 16777216)) / 2 = (335544375 / 33554432) by norm_num)
    (show (73 : ℕ) - 1 = 72 by norm_num)]
  have e28 : effPow (335544375 / 33554432 : ℝ) defaultParams = (32448054109226977069284679525 / 2132545145800205864181694464) := by
    rw [effPow_default_pos (335544375 / 33554432) (by norm_num)]
    norm_num
  rw [bisectLoop_down (show ¬ (72 : ℕ) = 0 by norm_num) e28
    (show ¬ |(32448054109226977069284679525 / 2132545145800205864181694464 : ℝ) - (8282179 / 544320)| < epsilon by
      rw [abs_sub_lt_iff]; norm_num [epsilon])
    (show (32448054109226977069284679525 / 2132545145800205864181694464 : ℝ) > (8282179 / 544320) by norm_num)
    (show ((335544375 / 33554432 : ℝ) + (167772125 / 16777216)) / 2 = (671088625 / 67108864) by norm_num)
    (show (72 : ℕ) - 1 = 71 by norm_num)]
  have e29 : effPow (671088625 / 67108864 : ℝ) defaultParams = (7008777798327162350949308365585 / 460629751492844466663246004224) := by
    rw [effPow_default_pos (671088625 / 67108864) (by norm_num)]
    norm_num
  rw [bisectLoop_conv_mid e29 (show |(7008777798327162350949308365585 / 460629751492844466663246004224 : ℝ) - (8282179 / 544320)| < epsilon by
    rw [abs_sub_lt_iff]; norm_num [epsilon]), abs_sub_le_iff]
  norm_num

/-- Bisection run of the solver on the default profile for the exact
target power of 20 km/h, replayed refinement by refinement. -/
theorem roundtrip_default_20 :
    |calculate_velocity (96862753 / 1905120) defaultParams - 20| ≤ 0.0001 := by
  unfold calculate_velocity
  have e0 : effPow (0 : ℝ) defaultParams = 0 := effPow_at_zero defaultParams
  rw [bisectLoop_up (show ¬ (100 : ℕ) = 0 by norm_num) e0
    (show ¬ |(0 : ℝ) - (96862753 / 1905120)| < epsilon by
      rw [abs_sub_lt_iff]; norm_num [epsilon])
    (show ¬ (0 : ℝ) > (96862753 / 1905120) by norm_num)
    (show ((1000 : ℝ) + (0)) / 2 = (500) by norm_num)
    (show (100 : ℕ) - 1 = 99 by norm_num)]
  have e1 : effPow (500 : ℝ) defaultParams = (23179473395 / 54432) := by
    rw [effPow_default_pos (500) (by norm_num)]
    norm_num
  rw [bisectLoop_down (show ¬ (99 : ℕ) = 0 by norm_num) e1
    (show ¬ |(23179473395 / 54432 : ℝ) - (96862753 / 1905120)| < epsilon by
      rw [abs_sub_lt_iff]; norm_num [epsilon])
    (show (23179473395 / 54432 : ℝ) > (96862753 / 1905120) by norm_num)
    (show ((500 : ℝ) + (0)) / 2 = (250) by norm_num)
    (show (99 : ℕ) - 1 = 98 by norm_num)]
  have e2 : effPow (250 : ℝ) defaultParams = (40732876265 / 762048) := by
    rw [effPow_default_pos (250) (by norm_num)]
    norm_num
  rw [bisectLoop_down (show ¬ (98 : ℕ) = 0 by norm_num) e2
    (show ¬ |(40732876265 / 762048 : ℝ) - (96862753 / 1905120)| < epsilon by
      rw [abs_sub_lt_iff]; norm_num [epsilon])
    (show (40732876265 / 762048 : ℝ) > (96862753 / 1905120) by norm_num)
    (show ((250 : ℝ) + (0)) / 2 = (125) by norm_num)
    (show (98 : ℕ) - 1 = 97 by norm_num)]
  have e3 : effPow (125 : ℝ) defaultParams = (5176008445 / 762048) := by
    rw [effPow_default_pos (125) (by norm_num)]
    norm_num
  rw [bisectLoop_down (show ¬ (97 : ℕ) = 0 by norm_num) e3
    (show ¬ |(5176008445 / 762048 : ℝ) - (96862753 / 1905120)| < epsilon by
      rw [abs_sub_lt_iff]; norm_num [epsilon])
    (show (5176008445 / 762048 : ℝ) > (96862753 / 1905120) by norm_num)
    (show ((125 : ℝ) + (0)) / 2 = (125 / 2) by norm_num)
    (show (97 : ℕ) - 1 = 96 by norm_num)]
  have e4 : effPow (125 / 2 : ℝ) defaultParams = (225045065 / 248832) := by
    rw [effPow_default_pos (125 / 2) (by norm_num)]
    norm_num
  rw [bisectLoop_down (show ¬ (96 : ℕ) = 0 by norm_num) e4
    (show ¬ |(225045065 / 248832 : ℝ) - (96862753 / 1905120)| < epsilon by
      rw [abs_sub_lt_iff]; norm_num [epsilon])
    (show (225045065 / 248832 : ℝ) > (96862753 / 1905120) by norm_num)
    (show ((125 / 2 : ℝ) + (0)) / 2 = (125 / 4) by norm_num)
    (show (96 : ℕ) - 1 = 95 by norm_num)]
  have e5 : effPow (125 / 4 : ℝ) defaultParams = (13727973365 / 97542144) := by
    rw [effPow_default_pos (125 / 4) (by norm_num)]
    norm_num
  rw [bisectLoop_down (show ¬ (95 : ℕ) = 0 by norm_num) e5
    (show ¬ |(13727973365 / 97542144 : ℝ) - (96862753 / 1905120)| < epsilon by
      rw [abs_sub_lt_iff]; norm_num [epsilon])
    (show (13727973365 / 97542144 : ℝ) > (96862753 / 1905120) by norm_num)
    (show ((125 / 4 : ℝ) + (0)) / 2 = (125 / 8) by norm_num)
    (show (95 : ℕ) - 1 = 94 by norm_num)]
  have e6 : effPow (125 / 8 : ℝ) defaultParams = (24531034085 / 780337152) := by
    rw [effPow_default_pos (125 / 8) (by norm_num)]
    norm_num
  rw [bisectLoop_up (show ¬ (94 : ℕ) = 0 by norm_num) e6
    (show ¬ |(24531034085 / 780337152 : ℝ) - (96862753 / 1905120)| < epsilon by
      rw [abs_sub_lt_iff]; norm_num [epsilon])
    (show ¬ (24531034085 / 780337152 : ℝ) > (96862753 / 1905120) by norm_num)
    (show ((125 / 4 : ℝ) + (125 / 8)) / 2 = (375 / 16) by norm_num)
    (show (94 : ℕ) - 1 = 93 by norm_num)]
  have e7 : effPow (375 / 16 : ℝ) defaultParams = (16528766885 / 231211008) := by
    rw [effPow_default_pos (375 / 16) (by norm_num)]
    norm_num
  rw [bisectLoop_down (show ¬ (93 : ℕ) = 0 by norm_num) e7
    (show ¬ |(16528766885 / 231211008 : ℝ) - (96862753 / 1905120)| < epsilon by
      rw [abs_sub_lt_iff]; norm_num [epsilon])
    (show (16528766885 / 231211008 : ℝ) > (96862753 / 1905120) by norm_num)
    (show ((375 / 16 : ℝ) + (125 / 8)) / 2 = (625 / 32) by norm_num)
    (show (93 : ℕ) - 1 = 92 by norm_num)]
  have e8 : effPow (625 / 32 : ℝ) defaultParams = (345456516775 / 7134511104) := by
    rw [effPow_default_pos (625 / 32) (by norm_num)]
    norm_num
  rw [bisectLoop_up (show ¬ (92 : ℕ) = 0 by norm_num) e8
    (show ¬ |(345456516775 / 7134511104 : ℝ) - (96862753 / 1905120)| < epsilon by
      rw [abs_sub_lt_iff]; norm_num [epsilon])
    (show ¬ (345456516775 / 7134511104 : ℝ) > (96862753 / 1905120) by norm_num)
    (show ((375 / 16 : ℝ) + (625 / 32)) / 2 = (1375 / 64) by norm_num)
    (show (92 : ℕ) - 1 = 91 by norm_num)]
  have e9 : effPow (1375 / 64 : ℝ) defaultParams = (3374206800745 / 57076088832) := by
    rw [effPow_default_pos (1375 / 64) (by norm_num)]
    norm_num
  rw [bisectLoop_down (show ¬ (91 : ℕ) = 0 by norm_num) e9
    (show ¬ |(3374206800745 / 57076088832 : ℝ) - (96862753 / 1905120)| < epsilon by
      rw [abs_sub_lt_iff]; norm_num [epsilon])
    (show (3374206800745 / 57076088832 : ℝ) > (96862753 / 1905120) by norm_num)
    (show ((1375 / 64 : ℝ) + (625 / 32)) / 2 = (2625 / 128) by norm_num)
    (show (91 : ℕ) - 1 = 90 by norm_num)]
  have e10 : effPow (2625 / 128 : ℝ) defaultParams = (905936783765 / 16911433728) := by
    rw [effPow_default_pos (2625 / 128) (by norm_num)]
    norm_num
  rw [bisectLoop_down (show ¬ (90 : ℕ) = 0 by norm_num) e10
    (show ¬ |(905936783765 / 16911433728 : ℝ) - (96862753 / 1905120)| < epsilon by
      rw [abs_sub_lt_iff]; norm_num [epsilon])
    (show (905936783765 / 16911433728 : ℝ) > (96862753 / 1905120) by norm_num)
    (show ((2625 / 128 : ℝ) + (625 / 32)) / 2 = (5125 / 256) by norm_num)
    (show (90 : ℕ) - 1 = 89 by norm_num)]
  have e11 : effPow (5125 / 256 : ℝ) defaultParams = (1302700671352765 / 25570087796736) := by
    rw [effPow_default_pos (5125 / 256) (by norm_num)]
    norm_num
  rw [bisectLoop_down (show ¬ (89 : ℕ) = 0 by norm_num) e11
    (show ¬ |(1302700671352765 / 25570087796736 : ℝ) - (96862753 / 1905120)| < epsilon by
      rw [abs_sub_lt_iff]; norm_num [epsilon])
    (show (1302700671352765 / 25570087796736 : ℝ) > (96862753 / 1905120) by norm_num)
    (show ((5125 / 256 : ℝ) + (625 / 32)) / 2 = (10125 / 512) by norm_num)
    (show (89 : ℕ) - 1 = 88 by norm_num)]
  have e12 : effPow (10125 / 512 : ℝ) defaultParams = (5973431193585 / 120259084288) := by
    rw [effPow_default_pos (10125 / 512) (by norm_num)]
    norm_num
  rw [bisectLoop_up (show ¬ (88 : ℕ) = 0 by norm_num) e12
    (show ¬ |(5973431193585 / 120259084288 : ℝ) - (96862753 / 1905120)| < epsilon by
      rw [abs_sub_lt_iff]; norm_num [epsilon])
    (show ¬ (5973431193585 / 120259084288 : ℝ) > (96862753 / 1905120) by norm_num)
    (show ((5125 / 256 : ℝ) + (10125 / 512)) / 2 = (20375 / 1024) by norm_num)
    (show (88 : ℕ) - 1 = 87 by norm_num)]
  have e13 : effPow (20375 / 1024 : ℝ) defaultParams = (82324695244362695 / 1636485618991104) := by
    rw [effPow_default_pos (20375 / 1024) (by norm_num)]
    norm_num
  rw [bisectLoop_up (show ¬ (87 : ℕ) = 0 by norm_num) e13
    (show ¬ |(82324695244362695 / 1636485618991104 : ℝ) - (96862753 / 1905120)| < epsilon by
      rw [abs_sub_lt_iff]; norm_num [epsilon])
    (show ¬ (82324695244362695 / 1636485618991104 : ℝ) > (96862753 / 1905120) by norm_num)
    (show ((5125 / 256 : ℝ) + (20375 / 1024)) / 2 = (40875 / 2048) by norm_num)
    (show (87 : ℕ) - 1 = 86 by norm_num)]
  have e14 : effPow (40875 / 2048 : ℝ) defaultParams = (3506773641813455 / 69269232549888) := by
    rw [effPow_default_pos (40875 / 2048) (by norm_num)]
    norm_num
  rw [bisectLoop_up (show ¬ (86 : ℕ) = 0 by norm_num) e14
    (show ¬ |(3506773641813455 / 69269232549888 : ℝ) - (96862753 / 1905120)| < epsilon by
      rw [abs_sub_lt_iff]; norm_num [epsilon])
    (show ¬ (3506773641813455 / 69269232549888 : ℝ) > (96862753 / 1905120) by norm_num)
    (show ((5125 / 256 : ℝ) + (40875 / 2048)) / 2 = (81875 / 4096) by norm_num)
    (show (86 : ℕ) - 1 = 85 by norm_num)]
  have e15 : effPow (81875 / 4096 : ℝ) defaultParams = (759861706954077725 / 14962154230775808) := by
    rw [effPow_default_pos (81875 / 4096) (by norm_num)]
    norm_num
  rw [bisectLoop_up (show ¬ (85 : ℕ) = 0 by norm_num) e15
    (show ¬ |(759861706954077725 / 14962154230775808 : ℝ) - (96862753 / 1905120)| < epsilon by
      rw [abs_sub_lt_iff]; norm_num [epsilon])
    (show ¬ (759861706954077725 / 14962154230775808 : ℝ) > (96862753 / 1905120) by norm_num)
    (show ((5125 / 256 : ℝ) + (81875 / 4096)) / 2 = (163875 / 8192) by norm_num)
    (show (85 : ℕ) - 1 = 84 by norm_num)]
  have e16 : effPow (163875 / 8192 : ℝ) defaultParams = (1578501324624119905 / 31032616182349824) := by
    rw [effPow_default_pos (163875 / 8192) (by norm_num)]
    norm_num
  rw [bisectLoop_down (show ¬ (84 : ℕ) = 0 by norm_num) e16
    (show ¬ |(1578501324624119905 / 31032616182349824 : ℝ) - (96862753 / 1905120)| < epsilon by
      rw [abs_sub_lt_iff]; norm_num [epsilon])
    (show (1578501324624119905 / 31032616182349824 : ℝ) > (96862753 / 1905120) by norm_num)
    (show ((163875 / 8192 : ℝ) + (81875 / 4096)) / 2 = (327625 / 16384) by norm_num)
    (show (84 : ℕ) - 1 = 83 by norm_num)]
  have e17 : effPow (327625 / 16384 : ℝ) defaultParams = (340687085788885938265 / 6703045095387561984) := by
    rw [effPow_default_pos (327625 / 16384) (by norm_num)]
    norm_num
  rw [bisectLoop_up (show ¬ (83 : ℕ) = 0 by norm_num) e17
    (show ¬ |(340687085788885938265 / 6703045095387561984 : ℝ) - (96862753 / 1905120)| < epsilon by
      rw [abs_sub_lt_iff]; norm_num [epsilon])
    (show ¬ (340687085788885938265 / 6703045095387561984 : ℝ) > (96862753 / 1905120) by norm_num)
    (show ((163875 / 8192 : ℝ) + (327625 / 16384)) / 2 = (655375 / 32768) by norm_num)
    (show (83 : ℕ) - 1 = 82 by norm_num)]
  have e18 : effPow (655375 / 32768 : ℝ) defaultParams = (55644353639672196895 / 1094374709451030528) := by
    rw [effPow_default_pos (655375 / 32768) (by norm_num)]
    norm_num
  rw [bisectLoop_down (show ¬ (82 : ℕ) = 0 by norm_num) e18
    (show ¬ |(55644353639672196895 / 1094374709451030528 : ℝ) - (96862753 / 1905120)| < epsilon by
      rw [abs_sub_lt_iff]; norm_num [epsilon])
    (show (55644353639672196895 / 1094374709451030528 : ℝ) > (96862753 / 1905120) by norm_num)
    (show ((655375 / 32768 : ℝ) + (327625 / 16384)) / 2 = (1310625 / 65536) by norm_num)
    (show (82 : ℕ) - 1 = 81 by norm_num)]
  have e19 : effPow (1310625 / 65536 : ℝ) defaultParams = (12820858165829976525 / 252201579132747776) := by
    rw [effPow_default_pos (1310625 / 65536) (by norm_num)]
    norm_num
  rw [bisectLoop_up (show ¬ (81 : ℕ) = 0 by norm_num) e19
    (show ¬ |(12820858165829976525 / 252201579132747776 : ℝ) - (96862753 / 1905120)| < epsilon by
      rw [abs_sub_lt_iff]; norm_num [epsilon])
    (show ¬ (12820858165829976525 / 252201579132747776 : ℝ) > (96862753 / 1905120) by norm_num)
    (show ((655375 / 32768 : ℝ) + (1310625 / 65536)) / 2 = (2621375 / 131072) by norm_num)
    (show (81 : ℕ) - 1 = 80 by norm_num)]
  have e20 : effPow (2621375 / 131072 : ℝ) defaultParams = (174483464830196163054335 / 3431959088838431735808) := by
    rw [effPow_default_pos (2621375 / 131072) (by norm_num)]
    norm_num
  rw [bisectLoop_up (show ¬ (80 : ℕ) = 0 by norm_num) e20
    (show ¬ |(174483464830196163054335 / 3431959088838431735808 : ℝ) - (96862753 / 1905120)| < epsilon by
      rw [abs_sub_lt_iff]; norm_num [epsilon])
    (show ¬ (174483464830196163054335 / 3431959088838431735808 : ℝ) > (96862753 / 1905120) by norm_num)
    (show ((655375 / 32768 : ℝ) + (2621375 / 131072)) / 2 = (5242875 / 262144) by norm_num)
    (show (80 : ℕ) - 1 = 79 by norm_num)]
  have e21 : effPow (5242875 / 262144 : ℝ) defaultParams = (51701356670465492788985 / 1016876767063239032832) := by
    rw [effPow_default_pos (5242875 / 262144) (by norm_num)]
    norm_num
  rw [bisectLoop_up (show ¬ (79 : ℕ) = 0 by norm_num) e21
    (show ¬ |(51701356670465492788985 / 1016876767063239032832 : ℝ) - (96862753 / 1905120)| < epsilon by
      rw [abs_sub_lt_iff]; norm_num [epsilon])
    (show ¬ (51701356670465492788985 / 1016876767063239032832 : ℝ) > (96862753 / 1905120) by norm_num)
    (show ((655375 / 32768 : ℝ) + (5242875 / 262144)) / 2 = (10485875 / 524288) by norm_num)
    (show (79 : ℕ) - 1 = 78 by norm_num)]
  have e22 : effPow (10485875 / 524288 : ℝ) defaultParams = (1595395527758585481946685 / 31377911669379947298816) := by
    rw [effPow_default_pos (10485875 / 524288) (by norm_num)]
    norm_num
  rw [bisectLoop_down (show ¬ (78 : ℕ) = 0 by norm_num) e22
    (show ¬ |(1595395527758585481946685 / 31377911669379947298816 : ℝ) - (96862753 / 1905120)| < epsilon by
      rw [abs_sub_lt_iff]; norm_num [epsilon])
    (show (1595395527758585481946685 / 31377911669379947298816 : ℝ) > (96862753 / 1905120) by norm_num)
    (show ((10485875 / 524288 : ℝ) + (5242875 / 262144)) / 2 = (20971625 / 1048576) by norm_num)
    (show (78 : ℕ) - 1 = 77 by norm_num)]
  have e23 : effPow (20971625 / 1048576 : ℝ) defaultParams = (89341046935425491344268345 / 1757163053485277048733696) := by
    rw [effPow_default_pos (20971625 / 1048576) (by norm_num)]
    norm_num
  rw [bisectLoop_down (show ¬ (77 : ℕ) = 0 by norm_num) e23
    (show ¬ |(89341046935425491344268345 / 1757163053485277048733696 : ℝ) - (96862753 / 1905120)| < epsilon by
      rw [abs_sub_lt_iff]; norm_num [epsilon])
    (show (89341046935425491344268345 / 1757163053485277048733696 : ℝ) > (96862753 / 1905120) by norm_num)
    (show ((20971625 / 1048576 : ℝ) + (5242875 / 262144)) / 2 = (41943125 / 2097152) by norm_num)
    (show (77 : ℕ) - 1 = 76 by norm_num)]
  have e24 : effPow (41943125 / 2097152 : ℝ) defaultParams = (102103423576823615153650475 / 2008186346840316627124224) := by
    rw [effPow_default_pos (41943125 / 2097152) (by norm_num)]
    norm_num
  rw [bisectLoop_down (show ¬ (76 : ℕ) = 0 by norm_num) e24
    (show ¬ |(102103423576823615153650475 / 2008186346840316627124224 : ℝ) - (96862753 / 1905120)| < epsilon by
      rw [abs_sub_lt_iff]; norm_num [epsilon])
    (show (102103423576823615153650475 / 2008186346840316627124224 : ℝ) > (96862753 / 1905120) by norm_num)
    (show ((41943125 / 2097152 : ℝ) + (5242875 / 262144)) / 2 = (83886125 / 4194304) by norm_num)
    (show (76 : ℕ) - 1 = 75 by norm_num)]
  have e25 : effPow (83886125 / 4194304 : ℝ) defaultParams = (816824868368676121860688355 / 16065490774722533016993792) := by
    rw [effPow_default_pos (83886125 / 4194304) (by norm_num)]
    norm_num
  rw [bisectLoop_down (show ¬ (75 : ℕ) = 0 by norm_num) e25
    (show ¬ |(816824868368676121860688355 / 16065490774722533016993792 : ℝ) - (96862753 / 1905120)| < epsilon by
      rw [abs_sub_lt_iff]; norm_num [epsilon])
    (show (816824868368676121860688355 / 16065490774722533016993792 : ℝ) > (96862753 / 1905120) by norm_num)
    (show ((83886125 / 4194304 : ℝ) + (5242875 / 262144)) / 2 = (167772125 / 8388608) by norm_num)
    (show (75 : ℕ) - 1 = 74 by norm_num)]
  have e26 : effPow (167772125 / 8388608 : ℝ) defaultParams = (45742122061882634035483631045 / 899667483384461848951652352) := by
    rw [effPow_default_pos (167772125 / 8388608) (by norm_num)]
    norm_num
  rw [bisectLoop_up (show ¬ (74 : ℕ) = 0 by norm_num) e26
    (show ¬ |(45742122061882634035483631045 / 899667483384461848951652352 : ℝ) - (96862753 / 1905120)| < epsilon by
      rw [abs_sub_lt_iff]; norm_num [epsilon])
    (show ¬ (45742122061882634035483631045 / 899667483384461848951652352 : ℝ) > (96862753 / 1905120) by norm_num)
    (show ((83886125 / 4194304 : ℝ) + (167772125 / 8388608)) / 2 = (335544375 / 16777216) by norm_num)
    (show (74 : ℕ) - 1 = 73 by norm_num)]
  have e27 : effPow (335544375 / 16777216 : ℝ) defaultParams = (13553231806001201275072634725 / 266568143225025733022711808) := by
    rw [effPow_default_pos (335544375 / 16777216) (by norm_num)]
    norm_num
  rw [bisectLoop_down (show ¬ (73 : ℕ) = 0 by norm_num) e27
    (show ¬ |(13553231806001201275072634725 / 266568143225025733022711808 : ℝ) - (96862753 / 1905120)| < epsilon by
      rw [abs_sub_lt_iff]; norm_num [epsilon])
    (show (13553231806001201275072634725 / 266568143225025733022711808 : ℝ) > (96862753 / 1905120) by norm_num)
    (show ((335544375 / 16777216 : ℝ) + (167772125 / 8388608)) / 2 = (671088625 / 33554432) by norm_num)
    (show (73 : ℕ) - 1 = 72 by norm_num)]
  have e28 : effPow (671088625 / 33554432 : ℝ) defaultParams = (2927496941028210920850166446865 / 57578718936605558332905750528) := by
    rw [effPow_default_pos (671088625 / 33554432) (by norm_num)]
    norm_num
  rw [bisectLoop_up (show ¬ (72 : ℕ) = 0 by norm_num) e28
    (show ¬ |(2927496941028210920850166446865 / 57578718936605558332905750528 : ℝ) - (96862753 / 1905120)| < epsilon by
      rw [abs_sub_lt_iff]; norm_num [epsilon])
    (show ¬ (2927496941028210920850166446865 / 57578718936605558332905750528 : ℝ) > (96862753 / 1905120) by norm_num)
    (show ((335544375 / 16777216 : ℝ) + (671088625 / 33554432)) / 2 = (1342177375 / 67108864) by norm_num)
    (show (72 : ℕ) - 1 = 71 by norm_num)]
  have e29 : effPow (1342177375 / 67108864 : ℝ) defaultParams = (477958776418317456592790464015 / 9400607173323356462515224576) := by
    rw [effPow_default_pos (1342177375 / 67108864) (by norm_num)]
    norm_num
  rw [bisectLoop_down (show ¬ (71 : ℕ) = 0 by norm_num) e29
    (show ¬ |(477958776418317456592790464015 / 9400607173323356462515224576 : ℝ) - (96862753 / 1905120)| < epsilon by
      rw [abs_sub_lt_iff]; norm_num [epsilon])
    (show (477958776418317456592790464015 / 9400607173323356462515224576 : ℝ) > (96862753 / 1905120) by norm_num)
    (show ((1342177375 / 67108864 : ℝ) + (671088625 / 33554432)) / 2 = (2684354625 / 134217728) by norm_num)
    (show (71 : ℕ) - 1 = 70 by norm_num)]
  have e30 : effPow (2684354625 / 134217728 : ℝ) defaultParams = (771028075271161804672383782715 / 15164765481245908367514271744) := by
    rw [effPow_default_pos (2684354625 / 134217728) (by norm_num)]
    norm_num
  rw [bisectLoop_down (show ¬ (70 : ℕ) = 0 by norm_num) e30
    (show ¬ |(771028075271161804672383782715 / 15164765481245908367514271744 : ℝ) - (96862753 / 1905120)| < epsilon by
      rw [abs_sub_lt_iff]; norm_num [epsilon])
    (show (771028075271161804672383782715 / 15164765481245908367514271744 : ℝ) > (96862753 / 1905120) by norm_num)
    (show ((2684354625 / 134217728 : ℝ) + (671088625 / 33554432)) / 2 = (5368709125 / 268435456) by norm_num)
    (show (70 : ℕ) - 1 = 69 by norm_num)]
  have e31 : effPow (5368709125 / 268435456 : ℝ) defaultParams = (1498878506066789965031224031962045 / 29480304095542045866447744270336) := by
    rw [effPow_default_pos (5368709125 / 268435456) (by norm_num)]
    norm_num
  rw [bisectLoop_conv_mid e31 (show |(1498878506066789965031224031962045 / 29480304095542045866447744270336 : ℝ) - (96862753 / 1905120)| < epsilon by
    rw [abs_sub_lt_iff]; norm_num [epsilon]), abs_sub_le_iff]
  norm_num

/-- Bisection run of the solver on the default profile for the exact
target power of 30 km/h, replayed refinement by refinement. -/
theorem roundtrip_default_30 :
    |calculate_velocity (17963917 / 141120) defaultParams - 30| ≤ 0.0001 := by
  unfold calculate_velocity
  have e0 : effPow (0 : ℝ) defaultParams = 0 := effPow_at_zero defaultParams
  rw [bisectLoop_up (show ¬ (100 : ℕ) = 0 by norm_num) e0
    (show ¬ |(0 : ℝ) - (17963917 / 141120)| < epsilon by
      rw [abs_sub_lt_iff]; norm_num [epsilon])
    (show ¬ (0 : ℝ) > (17963917 / 141120) by norm_num)
    (show ((1000 : ℝ) + (0)) / 2 = (500) by norm_num)
    (show (100 : ℕ) - 1 = 99 by norm_num)]
  have e1 : effPow (500 : ℝ) defaultParams = (23179473395 / 54432) := by
    rw [effPow_default_pos (500) (by norm_num)]
    norm_num
  rw [bisectLoop_down (show ¬ (99 : ℕ) = 0 by norm_num) e1
    (show ¬ |(23179473395 / 54432 : ℝ) - (17963917 / 141120)| < epsilon by
      rw [abs_sub_lt_iff]; norm_num [epsilon])
    (show (23179473395 / 54432 : ℝ) > (17963917 / 141120) by norm_num)
    (show ((500 : ℝ) + (0)) / 2 = (250) by norm_num)
    (show (99 : ℕ) - 1 = 98 by norm_num)]
  have e2 : effPow (250 : ℝ) defaultParams = (40732876265 / 762048) := by
    rw [effPow_default_pos (250) (by norm_num)]
    norm_num
  rw [bisectLoop_down (show ¬ (98 : ℕ) = 0 by norm_num) e2
    (show ¬ |(40732876265 / 762048 : ℝ) - (17963917 / 141120)| < epsilon by
      rw [abs_sub_lt_iff]; norm_num [epsilon])
    (show (40732876265 / 762048 : ℝ) > (17963917 / 141120) by norm_num)
    (show ((250 : ℝ) + (0)) / 2 = (125) by norm_num)
    (show (98 : ℕ) - 1 = 97 by norm_num)]
  have e3 : effPow (125 : ℝ) defaultParams = (5176008445 / 762048) := by
    rw [effPow_default_pos (125) (by norm_num)]
    norm_num
  rw [bisectLoop_down (show ¬ (97 : ℕ) = 0 by norm_num) e3
    (show ¬ |(5176008445 / 762048 : ℝ) - (17963917 / 141120)| < epsilon by
      rw [abs_sub_lt_iff]; norm_num [epsilon])
    (show (5176008445 / 762048 : ℝ) > (17963917 / 141120) by norm_num)
    (show ((125 : ℝ) + (0)) / 2 = (125 / 2) by norm_num)
    (show (97 : ℕ) - 1 = 96 by norm_num)]
  have e4 : effPow (125 / 2 : ℝ) defaultParams = (225045065 / 248832) := by
    rw [effPow_default_pos (125 / 2) (by norm_num)]
    norm_num
  rw [bisectLoop_down (show ¬ (96 : ℕ) = 0 by norm_num) e4
    (show ¬ |(225045065 / 248832 : ℝ) - (17963917 / 141120)| < epsilon by
      rw [abs_sub_lt_iff]; norm_num [epsilon])
    (show (225045065 / 248832 : ℝ) > (17963917 / 141120) by norm_num)
    (show ((125 / 2 : ℝ) + (0)) / 2 = (125 / 4) by norm_num)
    (show (96 : ℕ) - 1 = 95 by norm_num)]
  have e5 : effPow (125 / 4 : ℝ) defaultParams = (13727973365 / 97542144) := by
    rw [effPow_default_pos (125 / 4) (by norm_num)]
    norm_num
  rw [bisectLoop_down (show ¬ (95 : ℕ) = 0 by norm_num) e5
    (show ¬ |(13727973365 / 97542144 : ℝ) - (17963917 / 141120)| < epsilon by
      rw [abs_sub_lt_iff]; norm_num [epsilon])
    (show (13727973365 / 97542144 : ℝ) > (17963917 / 141120) by norm_num)
    (show ((125 / 4 : ℝ) + (0)) / 2 = (125 / 8) by norm_num)
    (show (95 : ℕ) - 1 = 94 by norm_num)]
  have e6 : effPow (125 / 8 : ℝ) defaultParams = (24531034085 / 780337152) := by
    rw [effPow_default_pos (125 / 8) (by norm_num)]
    norm_num
  rw [bisectLoop_up (show ¬ (94 : ℕ) = 0 by norm_num) e6
    (show ¬ |(24531034085 / 780337152 : ℝ) - (17963917 / 141120)| < epsilon by
      rw [abs_sub_lt_iff]; norm_num [epsilon])
    (show ¬ (24531034085 / 780337152 : ℝ) > (17963917 / 141120) by norm_num)
    (show ((125 / 4 : ℝ) + (125 / 8)) / 2 = (375 / 16) by norm_num)
    (show (94 : ℕ) - 1 = 93 by norm_num)]
  have e7 : effPow (375 / 16 : ℝ) defaultParams = (16528766885 / 231211008) := by
    rw [effPow_default_pos (375 / 16) (by norm_num)]
    norm_num
  rw [bisectLoop_up (show ¬ (93 : ℕ) = 0 by norm_num) e7
    (show ¬ |(16528766885 / 231211008 : ℝ) - (17963917 / 141120)| < epsilon by
      rw [abs_sub_lt_iff]; norm_num [epsilon])
    (show ¬ (16528766885 / 231211008 : ℝ) > (17963917 / 141120) by norm_num)
    (show ((125 / 4 : ℝ) + (375 / 16)) / 2 = (875 / 32) by norm_num)
    (show (93 : ℕ) - 1 = 92 by norm_num)]
  have e8 : effPow (875 / 32 : ℝ) defaultParams = (726685998485 / 7134511104) := by
    rw [effPow_default_pos (875 / 32) (by norm_num)]
    norm_num
  rw [bisectLoop_up (show ¬ (92 : ℕ) = 0 by norm_num) e8
    (show ¬ |(726685998485 / 7134511104 : ℝ) - (17963917 / 141120)| < epsilon by
      rw [abs_sub_lt_iff]; norm_num [epsilon])
    (show ¬ (726685998485 / 7134511104 : ℝ) > (17963917 / 141120) by norm_num)
    (show ((125 / 4 : ℝ) + (875 / 32)) / 2 = (1875 / 64) by norm_num)
    (show (92 : ℕ) - 1 = 91 by norm_num)]
  have e9 : effPow (1875 / 64 : ℝ) defaultParams = (1778014241425 / 14797504512) := by
    rw [effPow_default_pos (1875 / 64) (by norm_num)]
    norm_num
  rw [bisectLoop_up (show ¬ (91 : ℕ) = 0 by norm_num) e9
    (show ¬ |(1778014241425 / 14797504512 : ℝ) - (17963917 / 141120)| < epsilon by
      rw [abs_sub_lt_iff]; norm_num [epsilon])
    (show ¬ (1778014241425 / 14797504512 : ℝ) > (17963917 / 141120) by norm_num)
    (show ((125 / 4 : ℝ) + (1875 / 64)) / 2 = (3875 / 128) by norm_num)
    (show (91 : ℕ) - 1 = 90 by norm_num)]
  have e10 : effPow (3875 / 128 : ℝ) defaultParams = (416002847045435 / 3196260974592) := by
    rw [effPow_default_pos (3875 / 128) (by norm_num)]
    norm_num
  rw [bisectLoop_down (show ¬ (90 : ℕ) = 0 by norm_num) e10
    (show ¬ |(416002847045435 / 3196260974592 : ℝ) - (17963917 / 141120)| < epsilon by
      rw [abs_sub_lt_iff]; norm_num [epsilon])
    (show (416002847045435 / 3196260974592 : ℝ) > (17963917 / 141120) by norm_num)
    (show ((3875 / 128 : ℝ) + (1875 / 64)) / 2 = (7625 / 256) by norm_num)
    (show (90 : ℕ) - 1 = 89 by norm_num)]
  have e11 : effPow (7625 / 256 : ℝ) defaultParams = (456908922907295 / 3652869685248) := by
    rw [effPow_default_pos (7625 / 256) (by norm_num)]
    norm_num
  rw [bisectLoop_up (show ¬ (89 : ℕ) = 0 by norm_num) e11
    (show ¬ |(456908922907295 / 3652869685248 : ℝ) - (17963917 / 141120)| < epsilon by
      rw [abs_sub_lt_iff]; norm_num [epsilon])
    (show ¬ (456908922907295 / 3652869685248 : ℝ) > (17963917 / 141120) by norm_num)
    (show ((3875 / 128 : ℝ) + (7625 / 256)) / 2 = (15375 / 512) by norm_num)
    (show (89 : ℕ) - 1 = 88 by norm_num)]
  have e12 : effPow (15375 / 512 : ℝ) defaultParams = (138104783603995 / 1082331758592) := by
    rw [effPow_default_pos (15375 / 512) (by norm_num)]
    norm_num
  rw [bisectLoop_down (show ¬ (88 : ℕ) = 0 by norm_num) e12
    (show ¬ |(138104783603995 / 1082331758592 : ℝ) - (17963917 / 141120)| < epsilon by
      rw [abs_sub_lt_iff]; norm_num [epsilon])
    (show (138104783603995 / 1082331758592 : ℝ) > (17963917 / 141120) by norm_num)
    (show ((15375 / 512 : ℝ) + (7625 / 256)) / 2 = (30625 / 1024) by norm_num)
    (show (88 : ℕ) - 1 = 87 by norm_num)]
  have e13 : effPow (30625 / 1024 : ℝ) defaultParams = (4219334118883825 / 33397665693696) := by
    rw [effPow_default_pos (30625 / 1024) (by norm_num)]
    norm_num
  rw [bisectLoop_up (show ¬ (87 : ℕ) = 0 by norm_num) e13
    (show ¬ |(4219334118883825 / 33397665693696 : ℝ) - (17963917 / 141120)| < epsilon by
      rw [abs_sub_lt_iff]; norm_num [epsilon])
    (show ¬ (4219334118883825 / 33397665693696 : ℝ) > (17963917 / 141120) by norm_num)
    (show ((15375 / 512 : ℝ) + (30625 / 1024)) / 2 = (61375 / 2048) by norm_num)
    (show (87 : ℕ) - 1 = 86 by norm_num)]
  have e14 : effPow (61375 / 2048 : ℝ) defaultParams = (1662232301536238335 / 13091884951928832) := by
    rw [effPow_default_pos (61375 / 2048) (by norm_num)]
    norm_num
  rw [bisectLoop_up (show ¬ (86 : ℕ) = 0 by norm_num) e14
    (show ¬ |(1662232301536238335 / 13091884951928832 : ℝ) - (17963917 / 141120)| < epsilon by
      rw [abs_sub_lt_iff]; norm_num [epsilon])
    (show ¬ (1662232301536238335 / 13091884951928832 : ℝ) > (17963917 / 141120) by norm_num)
    (show ((15375 / 512 : ℝ) + (61375 / 2048)) / 2 = (122875 / 4096) by norm_num)
    (show (86 : ℕ) - 1 = 85 by norm_num)]
  have e15 : effPow (122875 / 4096 : ℝ) defaultParams = (1904423027379411685 / 14962154230775808) := by
    rw [effPow_default_pos (122875 / 4096) (by norm_num)]
    norm_num
  rw [bisectLoop_up (show ¬ (85 : ℕ) = 0 by norm_num) e15
    (show ¬ |(1904423027379411685 / 14962154230775808 : ℝ) - (17963917 / 141120)| < epsilon by
      rw [abs_sub_lt_iff]; norm_num [epsilon])
    (show ¬ (1904423027379411685 / 14962154230775808 : ℝ) > (17963917 / 141120) by norm_num)
    (show ((15375 / 512 : ℝ) + (122875 / 4096)) / 2 = (245875 / 8192) by norm_num)
    (show (85 : ℕ) - 1 = 84 by norm_num)]
  have e16 : effPow (245875 / 8192 : ℝ) defaultParams = (15254325686662669885 / 119697233846206464) := by
    rw [effPow_default_pos (245875 / 8192) (by norm_num)]
    norm_num
  rw [bisectLoop_down (show ¬ (84 : ℕ) = 0 by norm_num) e16
    (show ¬ |(15254325686662669885 / 119697233846206464 : ℝ) - (17963917 / 141120)| < epsilon by
      rw [abs_sub_lt_iff]; norm_num [epsilon])
    (show (15254325686662669885 / 119697233846206464 : ℝ) > (17963917 / 141120) by norm_num)
    (show ((245875 / 8192 : ℝ) + (122875 / 4096)) / 2 = (491625 / 16384) by norm_num)
    (show (84 : ℕ) - 1 = 83 by norm_num)]
  have e17 : effPow (491625 / 16384 : ℝ) defaultParams = (3513217110582810915 / 27584547717644288) := by
    rw [effPow_default_pos (491625 / 16384) (by norm_num)]
    norm_num
  rw [bisectLoop_down (show ¬ (83 : ℕ) = 0 by norm_num) e17
    (show ¬ |(3513217110582810915 / 27584547717644288 : ℝ) - (17963917 / 141120)| < epsilon by
      rw [abs_sub_lt_iff]; norm_num [epsilon])
    (show (3513217110582810915 / 27584547717644288 : ℝ) > (17963917 / 141120) by norm_num)
    (show ((491625 / 16384 : ℝ) + (122875 / 4096)) / 2 = (983125 / 32768) by norm_num)
    (show (83 : ℕ) - 1 = 82 by norm_num)]
  have e18 : effPow (983125 / 32768 : ℝ) defaultParams = (975367551086419852075 / 7660622966157213696) := by
    rw [effPow_default_pos (983125 / 32768) (by norm_num)]
    norm_num
  rw [bisectLoop_down (show ¬ (82 : ℕ) = 0 by norm_num) e18
    (show ¬ |(975367551086419852075 / 7660622966157213696 : ℝ) - (17963917 / 141120)| < epsilon by
      rw [abs_sub_lt_iff]; norm_num [epsilon])
    (show (975367551086419852075 / 7660622966157213696 : ℝ) > (17963917 / 141120) by norm_num)
    (show ((983125 / 32768 : ℝ) + (122875 / 4096)) / 2 = (1966125 / 65536) by norm_num)
    (show (82 : ℕ) - 1 = 81 by norm_num)]
  have e19 : effPow (1966125 / 65536 : ℝ) defaultParams = (41278986752131870495 / 324259173170675712) := by
    rw [effPow_default_pos (1966125 / 65536) (by norm_num)]
    norm_num
  rw [bisectLoop_down (show ¬ (81 : ℕ) = 0 by norm_num) e19
    (show ¬ |(41278986752131870495 / 324259173170675712 : ℝ) - (17963917 / 141120)| < epsilon by
      rw [abs_sub_lt_iff]; norm_num [epsilon])
    (show (41278986752131870495 / 324259173170675712 : ℝ) > (17963917 / 141120) by norm_num)
    (show ((1966125 / 65536 : ℝ) + (122875 / 4096)) / 2 = (3932125 / 131072) by norm_num)
    (show (81 : ℕ) - 1 = 80 by norm_num)]
  have e20 : effPow (3932125 / 131072 : ℝ) defaultParams = (436862865100681132629445 / 3431959088838431735808) := by
    rw [effPow_default_pos (3932125 / 131072) (by norm_num)]
    norm_num
  rw [bisectLoop_up (show ¬ (80 : ℕ) = 0 by norm_num) e20
    (show ¬ |(436862865100681132629445 / 3431959088838431735808 : ℝ) - (17963917 / 141120)| < epsilon by
      rw [abs_sub_lt_iff]; norm_num [epsilon])
    (show ¬ (436862865100681132629445 / 3431959088838431735808 : ℝ) > (17963917 / 141120) by norm_num)
    (show ((1966125 / 65536 : ℝ) + (3932125 / 131072)) / 2 = (7864375 / 262144) by norm_num)
    (show (80 : ℕ) - 1 = 79 by norm_num)]
  have e21 : effPow (7864375 / 262144 : ℝ) defaultParams = (3495038641629567632215975 / 27455672710707453886464) := by
    rw [effPow_default_pos (7864375 / 262144) (by norm_num)]
    norm_num
  rw [bisectLoop_down (show ¬ (79 : ℕ) = 0 by norm_num) e21
    (show ¬ |(3495038641629567632215975 / 27455672710707453886464 : ℝ) - (17963917 / 141120)| < epsilon by
      rw [abs_sub_lt_iff]; norm_num [epsilon])
    (show (3495038641629567632215975 / 27455672710707453886464 : ℝ) > (17963917 / 141120) by norm_num)
    (show ((7864375 / 262144 : ℝ) + (3932125 / 131072)) / 2 = (15728625 / 524288) by norm_num)
    (show (79 : ℕ) - 1 = 78 by norm_num)]
  have e22 : effPow (15728625 / 524288 : ℝ) defaultParams = (115060766444104006661355 / 903890459611768029184) := by
    rw [effPow_default_pos (15728625 / 524288) (by norm_num)]
    norm_num
  rw [bisectLoop_up (show ¬ (78 : ℕ) = 0 by norm_num) e22
    (show ¬ |(115060766444104006661355 / 903890459611768029184 : ℝ) - (17963917 / 141120)| < epsilon by
      rw [abs_sub_lt_iff]; norm_num [epsilon])
    (show ¬ (115060766444104006661355 / 903890459611768029184 : ℝ) > (17963917 / 141120) by norm_num)
    (show ((7864375 / 262144 : ℝ) + (15728625 / 524288)) / 2 = (31457375 / 1048576) by norm_num)
    (show (78 : ℕ) - 1 = 77 by norm_num)]
  have e23 : effPow (31457375 / 1048576 : ℝ) defaultParams = (31954328786881377430899305 / 251023293355039578390528) := by
    rw [effPow_default_pos (31457375 / 1048576) (by norm_num)]
    norm_num
  rw [bisectLoop_down (show ¬ (77 : ℕ) = 0 by norm_num) e23
    (show ¬ |(31954328786881377430899305 / 251023293355039578390528 : ℝ) - (17963917 / 141120)| < epsilon by
      rw [abs_sub_lt_iff]; norm_num [epsilon])
    (show (31954328786881377430899305 / 251023293355039578390528 : ℝ) > (17963917 / 141120) by norm_num)
    (show ((31457375 / 1048576 : ℝ) + (15728625 / 524288)) / 2 = (62914625 / 2097152) by norm_num)
    (show (77 : ℕ) - 1 = 76 by norm_num)]
  have e24 : effPow (62914625 / 2097152 : ℝ) defaultParams = (255633389412391445837975735 / 2008186346840316627124224) := by
    rw [effPow_default_pos (62914625 / 2097152) (by norm_num)]
    norm_num
  rw [bisectLoop_down (show ¬ (76 : ℕ) = 0 by norm_num) e24
    (show ¬ |(255633389412391445837975735 / 2008186346840316627124224 : ℝ) - (17963917 / 141120)| < epsilon by
      rw [abs_sub_lt_iff]; norm_num [epsilon])
    (show (255633389412391445837975735 / 2008186346840316627124224 : ℝ) > (17963917 / 141120) by norm_num)
    (show ((62914625 / 2097152 : ℝ) + (15728625 / 524288)) / 2 = (125829125 / 4194304) by norm_num)
    (show (76 : ℕ) - 1 = 75 by norm_num)]
  have e25 : effPow (125829125 / 4194304 : ℝ) defaultParams = (14315435062471200154237658045 / 112458435423057731118956544) := by
    rw [effPow_default_pos (125829125 / 4194304) (by norm_num)]
    norm_num
  rw [bisectLoop_down (show ¬ (75 : ℕ) = 0 by norm_num) e25
    (show ¬ |(14315435062471200154237658045 / 112458435423057731118956544 : ℝ) - (17963917 / 141120)| < epsilon by
      rw [abs_sub_lt_iff]; norm_num [epsilon])
    (show (14315435062471200154237658045 / 112458435423057731118956544 : ℝ) > (17963917 / 141120) by norm_num)
    (show ((125829125 / 4194304 : ℝ) + (15728625 / 524288)) / 2 = (251658125 / 8388608) by norm_num)
    (show (75 : ℕ) - 1 = 74 by norm_num)]
  have e26 : effPow (251658125 / 8388608 : ℝ) defaultParams = (2337211051458412495249338725 / 18360560885397180590850048) := by
    rw [effPow_default_pos (251658125 / 8388608) (by norm_num)]
    norm_num
  rw [bisectLoop_up (show ¬ (74 : ℕ) = 0 by norm_num) e26
    (show ¬ |(2337211051458412495249338725 / 18360560885397180590850048 : ℝ) - (17963917 / 141120)| < epsilon by
      rw [abs_sub_lt_iff]; norm_num [epsilon])
    (show ¬ (2337211051458412495249338725 / 18360560885397180590850048 : ℝ) > (17963917 / 141120) by norm_num)
    (show ((125829125 / 4194304 : ℝ) + (251658125 / 8388608)) / 2 = (503316375 / 16777216) by norm_num)
    (show (74 : ℕ) - 1 = 73 by norm_num)]
  have e27 : effPow (503316375 / 16777216 : ℝ) defaultParams = (33932862521659441649347976645 / 266568143225025733022711808) := by
    rw [effPow_default_pos (503316375 / 16777216) (by norm_num)]
    norm_num
  rw [bisectLoop_up (show ¬ (73 : ℕ) = 0 by norm_num) e27
    (show ¬ |(33932862521659441649347976645 / 266568143225025733022711808 : ℝ) - (17963917 / 141120)| < epsilon by
      rw [abs_sub_lt_iff]; norm_num [epsilon])
    (show ¬ (33932862521659441649347976645 / 266568143225025733022711808 : ℝ) > (17963917 / 141120) by norm_num)
    (show ((125829125 / 4194304 : ℝ) + (503316375 / 16777216)) / 2 = (1006632875 / 33554432) by norm_num)
    (show (73 : ℕ) - 1 = 72 by norm_num)]
  have e28 : effPow (1006632875 / 33554432 : ℝ) defaultParams = (7329500528331602278639880921555 / 57578718936605558332905750528) := by
    rw [effPow_default_pos (1006632875 / 33554432) (by norm_num)]
    norm_num
  rw [bisectLoop_up (show ¬ (72 : ℕ) = 0 by norm_num) e28
    (show ¬ |(7329500528331602278639880921555 / 57578718936605558332905750528 : ℝ) - (17963917 / 141120)| < epsilon by
      rw [abs_sub_lt_iff]; norm_num [epsilon])
    (show ¬ (7329500528331602278639880921555 / 57578718936605558332905750528 : ℝ) > (17963917 / 141120) by norm_num)
    (show ((125829125 / 4194304 : ℝ) + (1006632875 / 33554432)) / 2 = (2013265875 / 67108864) by norm_num)
    (show (72 : ℕ) - 1 = 71 by norm_num)]
  have e29 : effPow (2013265875 / 67108864 : ℝ) defaultParams = (310243455668079035515654944295 / 2437194452343092416207650816) := by
    rw [effPow_default_pos (2013265875 / 67108864) (by norm_num)]
    norm_num
  rw [bisectLoop_up (show ¬ (71 : ℕ) = 0 by norm_num) e29
    (show ¬ |(310243455668079035515654944295 / 2437194452343092416207650816 : ℝ) - (17963917 / 141120)| < epsilon by
      rw [abs_sub_lt_iff]; norm_num [epsilon])
    (show ¬ (310243455668079035515654944295 / 2437194452343092416207650816 : ℝ) > (17963917 / 141120) by norm_num)
    (show ((125829125 / 4194304 : ℝ) + (2013265875 / 67108864)) / 2 = (4026531875 / 134217728) by norm_num)
    (show (71 : ℕ) - 1 = 70 by norm_num)]
  have e30 : effPow (4026531875 / 134217728 : ℝ) defaultParams = (469088140548594915540875620655675 / 3685038011942755733305968033792) := by
    rw [effPow_default_pos (4026531875 / 134217728) (by norm_num)]
    norm_num
  rw [bisectLoop_down (show ¬ (70 : ℕ) = 0 by norm_num) e30
    (show ¬ |(469088140548594915540875620655675 / 3685038011942755733305968033792 : ℝ) - (17963917 / 141120)| < epsilon by
      rw [abs_sub_lt_iff]; norm_num [epsilon])
    (show (469088140548594915540875620655675 / 3685038011942755733305968033792 : ℝ) > (17963917 / 141120) by norm_num)
    (show ((4026531875 / 134217728 : ℝ) + (2013265875 / 67108864)) / 2 = (8053063625 / 268435456) by norm_num)
    (show (70 : ℕ) - 1 = 69 by norm_num)]
  have e31 : effPow (8053063625 / 268435456 : ℝ) defaultParams = (3752704982074919711690235353296985 / 29480304095542045866447744270336) := by
    rw [effPow_default_pos (8053063625 / 268435456) (by norm_num)]
    norm_num
  rw [bisectLoop_up (show ¬ (69 : ℕ) = 0 by norm_num) e31
    (show ¬ |(3752704982074919711690235353296985 / 29480304095542045866447744270336 : ℝ) - (17963917 / 141120)| < epsilon by
      rw [abs_sub_lt_iff]; norm_num [epsilon])
    (show ¬ (3752704982074919711690235353296985 / 29480304095542045866447744270336 : ℝ) > (17963917 / 141120) by norm_num)
    (show ((4026531875 / 134217728 : ℝ) + (8053063625 / 268435456)) / 2 = (16106127375 / 536870912) by norm_num)
    (show (69 : ℕ) - 1 = 68 by norm_num)]
  have e32 : effPow (16106127375 / 536870912 : ℝ) defaultParams = (158844658337855620262037219198235 / 1247843559599663317098317217792) := by
    rw [effPow_default_pos (16106127375 / 536870912) (by norm_num)]
    norm_num
  rw [bisectLoop_conv_mid e32 (show |(158844658337855620262037219198235 / 1247843559599663317098317217792 : ℝ) - (17963917 / 141120)| < epsilon by
    rw [abs_sub_lt_iff]; norm_num [epsilon]), abs_sub_le_iff]
  norm_num

/-- C7 (amended): on the default profile (grade 0, headwind 0), solving
for the exact effective power of each v among 10, 20 and 30 km/h returns
a velocity within 1e-4 km/h of v. -/
theorem c7_amended :
    |calculate_velocity (effPow 10 defaultParams) defaultParams - 10| ≤ 0.0001 ∧
      |calculate_velocity (effPow 20 defaultParams) defaultParams - 20| ≤ 0.0001 ∧
      |calculate_velocity (effPow 30 defaultParams) defaultParams - 30| ≤ 0.0001 := by
  have h10 : effPow 10 defaultParams = 8282179 / 544320 := by
    rw [effPow_default_pos 10 (by norm_num)]
    norm_num
  have h20 : effPow 20 defaultParams = 96862753 / 1905120 := by
    rw [effPow_default_pos 20 (by norm_num)]
    norm_num
  have h30 : effPow 30 defaultParams = 17963917 / 141120 := by
    rw [effPow_default_pos 30 (by norm_num)]
    norm_num
  rw [h10, h20, h30]
  exact ⟨roundtrip_default_10, roundtrip_default_20, roundtrip_default_30⟩

end CyclingCalc
